import Mathlib

/-!
Verification development for the EKG axis-trainer waveform engine.

The repository's calculation core consists of:
* the limb-lead deflection engine (`qrsDeflectionCalculator`:
  `calculateLimbLeadDeflections`, `createQRSDeflection`,
  `applyMinimumValues`, `normalizeLimbLeadDeflections`, `normalizeAngle`);
* the chest-lead deflection engine (`chestLeadDeflectionCalculator`:
  `generateChestLeadDeflection`, `calculateChestLeadDeflections`,
  `normalizeDeflections`);
* the axis classification helpers (`axisCalculations.ts` / `axisConstants.ts`:
  `classifyAxis`, `classifyAxisValue`).

Modelling conventions:
* JavaScript numbers on the finite, non-NaN paths are modelled by `ℚ`; every
  arithmetic operation the engines perform on these paths (+, -, *, /, %, abs,
  min, max, comparisons) is exact on rationals, so the embedding is faithful
  for finite inputs.
* `NaN` (and the other non-finite values, which the engines only meet via
  `isNaN`-style guards or trigonometric calls that turn them into `NaN`) is
  modelled by `none : Option ℚ`; arithmetic on `Option ℚ` propagates `none`
  exactly as JavaScript arithmetic propagates `NaN`.
* `Math.cos(x * Math.PI / 180)` is transcendental and irrational on almost
  every rational input, so it is abstracted as an explicit function parameter
  `cosd : ℚ → ℚ` (`cosd x` stands for the cosine of `x` degrees); theorems
  assume only the standard facts about it that they need (at most `cosd 0 = 1`).
-/

/-- JavaScript truncation toward zero, as used by the `%` operator:
`Math.trunc`-style integer part of a rational. -/
def jsTrunc (x : ℚ) : ℤ :=
  if x < 0 then -⌊-x⌋ else ⌊x⌋

/-- The JavaScript remainder operator `a % n` on (finite) numbers:
`a - n * trunc (a / n)`, taking the sign of the dividend. -/
def jsMod (a n : ℚ) : ℚ :=
  a - n * (jsTrunc (a / n) : ℚ)

/-- `normalizeAngle` (qrsDeflectionCalculator lines 609-618): reduce an angle
to the half-open interval `(-180, 180]` via the double-mod idiom
`((angle % 360) + 360) % 360` followed by the `> 180` adjustment.  The
source's `isValidNumber` guard (returning 0 for non-finite input) is dead
code over `ℚ`, where every value is finite. -/
def normalizeAngle (angle : ℚ) : ℚ :=
  let a := jsMod (jsMod angle 360 + 360) 360
  if a > 180 then a - 360 else a

theorem jsMod_eq_sub_int (a n : ℚ) : ∃ k : ℤ, jsMod a n = a - n * k :=
  ⟨jsTrunc (a / n), rfl⟩

theorem jsTrunc_nonneg_eq_floor {x : ℚ} (h : 0 ≤ x) : jsTrunc x = ⌊x⌋ := by
  unfold jsTrunc
  rw [if_neg (not_lt.mpr h)]

theorem jsMod_360_bounds (a : ℚ) : -360 < jsMod a 360 ∧ jsMod a 360 < 360 := by
  unfold jsMod jsTrunc
  by_cases h : a / 360 < 0
  · rw [if_pos h]
    have h1 : (⌊-(a / 360)⌋ : ℚ) ≤ -(a / 360) := Int.floor_le _
    have h2 : -(a / 360) - 1 < (⌊-(a / 360)⌋ : ℚ) := Int.sub_one_lt_floor _
    push_cast
    constructor <;> nlinarith
  · rw [if_neg h]
    push_neg at h
    have h1 : (⌊a / 360⌋ : ℚ) ≤ a / 360 := Int.floor_le _
    have h2 : a / 360 - 1 < (⌊a / 360⌋ : ℚ) := Int.sub_one_lt_floor _
    constructor <;> nlinarith

theorem jsMod_360_nonneg_eq {y : ℚ} (h : 0 ≤ y) :
    jsMod y 360 = y - 360 * ⌊y / 360⌋ := by
  unfold jsMod
  rw [jsTrunc_nonneg_eq_floor (by positivity)]

theorem jsMod_360_nonneg_bounds {y : ℚ} (h : 0 ≤ y) :
    0 ≤ jsMod y 360 ∧ jsMod y 360 < 360 := by
  rw [jsMod_360_nonneg_eq h]
  have h1 : (⌊y / 360⌋ : ℚ) ≤ y / 360 := Int.floor_le _
  have h2 : y / 360 - 1 < (⌊y / 360⌋ : ℚ) := Int.sub_one_lt_floor _
  constructor <;> nlinarith

/-- The double-mod `((a % 360) + 360) % 360` is the canonical representative
of `a` modulo 360 in `[0, 360)`. -/
theorem double_mod_eq (a : ℚ) :
    jsMod (jsMod a 360 + 360) 360 = a - 360 * ⌊a / 360⌋ := by
  obtain ⟨k1, hk1⟩ := jsMod_eq_sub_int a 360
  obtain ⟨hlo, hhi⟩ := jsMod_360_bounds a
  have hy : (0 : ℚ) ≤ jsMod a 360 + 360 := by linarith
  obtain ⟨k2, hk2⟩ : ∃ k : ℤ, jsMod (jsMod a 360 + 360) 360 = a - 360 * k := by
    rw [jsMod_360_nonneg_eq hy]
    exact ⟨k1 - 1 + ⌊(jsMod a 360 + 360) / 360⌋, by push_cast; linarith⟩
  obtain ⟨hlo2, hhi2⟩ := jsMod_360_nonneg_bounds hy
  rw [hk2] at hlo2 hhi2 ⊢
  congr 1
  have hfl : ⌊a / 360⌋ = k2 := by
    rw [Int.floor_eq_iff]
    constructor
    · rw [le_div_iff₀ (by norm_num : (0:ℚ) < 360)]
      linarith
    · rw [div_lt_iff₀ (by norm_num : (0:ℚ) < 360)]
      linarith
  rw [hfl]

theorem normalizeAngle_eq (a : ℚ) :
    normalizeAngle a =
      (if a - 360 * ⌊a / 360⌋ > 180 then a - 360 * ⌊a / 360⌋ - 360
       else a - 360 * ⌊a / 360⌋) := by
  unfold normalizeAngle
  rw [double_mod_eq]

/-- `normalizeAngle` lands in `(-180, 180]`. -/
theorem normalizeAngle_bounds (a : ℚ) :
    -180 < normalizeAngle a ∧ normalizeAngle a ≤ 180 := by
  rw [normalizeAngle_eq]
  have h1 : (⌊a / 360⌋ : ℚ) ≤ a / 360 := Int.floor_le _
  have h2 : a / 360 - 1 < (⌊a / 360⌋ : ℚ) := Int.sub_one_lt_floor _
  split_ifs with h
  · constructor <;> nlinarith
  · push_neg at h
    constructor <;> nlinarith

theorem normalizeAngle_sub_int (a : ℚ) :
    ∃ k : ℤ, normalizeAngle a = a - 360 * k := by
  rw [normalizeAngle_eq]
  split_ifs with h
  · exact ⟨⌊a / 360⌋ + 1, by push_cast; ring⟩
  · exact ⟨⌊a / 360⌋, rfl⟩

/-- Shifting the input by an integer multiple of 360 does not change the
normalized angle. -/
theorem normalizeAngle_int_shift (a : ℚ) (k : ℤ) :
    normalizeAngle (a + 360 * k) = normalizeAngle a := by
  rw [normalizeAngle_eq, normalizeAngle_eq]
  have hfl : ⌊(a + 360 * (k : ℚ)) / 360⌋ = ⌊a / 360⌋ + k := by
    rw [show (a + 360 * (k : ℚ)) / 360 = a / 360 + k by field_simp; ring]
    exact Int.floor_add_int _ _
  rw [hfl]
  push_cast
  ring_nf

theorem normalizeAngle_add_360 (a : ℚ) :
    normalizeAngle (a + 360) = normalizeAngle a := by
  have := normalizeAngle_int_shift a 1
  simpa using this

/-- Normalizing `L - normalizeAngle a` is the same as normalizing `L - a`:
the two arguments differ by an integer multiple of 360. -/
theorem normalizeAngle_sub_normalizeAngle (L a : ℚ) :
    normalizeAngle (L - normalizeAngle a) = normalizeAngle (L - a) := by
  obtain ⟨k, hk⟩ := normalizeAngle_sub_int a
  rw [hk, show L - (a - 360 * (k : ℤ)) = (L - a) + 360 * k by ring]
  exact normalizeAngle_int_shift (L - a) k

/-- A single lead's QRS deflection triple (millimetres), from the
`QRSDeflection` interface of qrsDeflectionCalculator. -/
@[ext]
structure QRSDeflection where
  q : ℚ
  r : ℚ
  s : ℚ
deriving DecidableEq, Repr

/-- The six limb leads, from the `LimbLeadDeflections` interface. -/
structure LimbLeadDeflections where
  leadI : QRSDeflection
  leadII : QRSDeflection
  leadIII : QRSDeflection
  aVR : QRSDeflection
  aVL : QRSDeflection
  aVF : QRSDeflection
deriving DecidableEq, Repr

/-- Index type for the six limb leads (object keys of `LimbLeadDeflections`,
in declaration order). -/
inductive LimbLead
  | leadI | leadII | leadIII | aVR | aVL | aVF
deriving DecidableEq, Repr

/-- Field access to a `LimbLeadDeflections` by lead index. -/
def getLimb (d : LimbLeadDeflections) : LimbLead → QRSDeflection
  | .leadI => d.leadI
  | .leadII => d.leadII
  | .leadIII => d.leadIII
  | .aVR => d.aVR
  | .aVL => d.aVL
  | .aVF => d.aVF

/-- The fixed hexaxial lead angles (`leadAngles` object, lines 419-426). -/
def limbLeadAngle : LimbLead → ℚ
  | .leadI => 0
  | .leadII => 60
  | .leadIII => 120
  | .aVR => -150
  | .aVL => -30
  | .aVF => 90

/-- The body of `createQRSDeflection` (qrsDeflectionCalculator lines
532-604) after its input sanitization, on finite values.  The JavaScript
mutations `rAmp *= ...` are rendered as `let`-rebindings; the trailing
`isValidNumber` checks on `rAmp`/`sAmp` are dead code over `ℚ`. -/
def createQRSDeflectionCore (axisAngle leadAngle baseAmplitude : ℚ) : QRSDeflection :=
  let amplifiedBaseAmplitude := baseAmplitude * 1.8
  let angleDiff := normalizeAngle (leadAngle - axisAngle)
  let absAngleDiff := |angleDiff|
  let qValue : ℚ := 0
  let TOTAL_AMPLITUDE := 3.0 * amplifiedBaseAmplitude
  let angleProportion := absAngleDiff / 180
  let rProportion := 0.9 - 0.8 * angleProportion
  let sProportion := 0.1 + 0.8 * angleProportion
  let rAmp := TOTAL_AMPLITUDE * rProportion
  let sAmp := -(TOTAL_AMPLITUDE * sProportion)
  -- if (Math.abs(absAngleDiff - 90) < 5) { rAmp = 1.5*amp; sAmp = -1.5*amp; }
  let rAmp := if |absAngleDiff - 90| < 5 then 1.5 * amplifiedBaseAmplitude else rAmp
  let sAmp := if |absAngleDiff - 90| < 5 then -(1.5 * amplifiedBaseAmplitude) else sAmp
  -- if (absAngleDiff < 15) { rAmp *= 1.2; sAmp *= 0.8; }
  let rAmp := if absAngleDiff < 15 then rAmp * 1.2 else rAmp
  let sAmp := if absAngleDiff < 15 then sAmp * 0.8 else sAmp
  -- if (absAngleDiff > 165) { rAmp *= 0.8; sAmp *= 1.2; }
  let rAmp := if absAngleDiff > 165 then rAmp * 0.8 else rAmp
  let sAmp := if absAngleDiff > 165 then sAmp * 1.2 else sAmp
  ⟨qValue, rAmp, sAmp⟩

/-- The input sanitization on the first lines of `createQRSDeflection`:
`if (!isValidNumber(axisAngle)) axisAngle = 0;` (NaN modelled `none`). -/
def sanitizeAxisAngle : Option ℚ → ℚ
  | none => 0
  | some a => a

/-- The input sanitization
`if (!isValidNumber(baseAmplitude) || baseAmplitude <= 0) baseAmplitude = 1.0;`. -/
def sanitizeBaseAmplitude : Option ℚ → ℚ
  | none => 1
  | some b => if b ≤ 0 then 1 else b

/-- `createQRSDeflection` (qrsDeflectionCalculator lines 532-604): sanitize
the two possibly-invalid inputs, then run the finite-arithmetic body.  The
`leadAngle` argument is one of the six constants at every call site, so its
(dead) validity check is dropped. -/
def createQRSDeflection (axisAngleIn : Option ℚ) (leadAngle : ℚ)
    (baseAmplitudeIn : Option ℚ) : QRSDeflection :=
  createQRSDeflectionCore (sanitizeAxisAngle axisAngleIn) leadAngle
    (sanitizeBaseAmplitude baseAmplitudeIn)

/-- The `minValues`-based floor applied per component inside
`applyMinimumValues` (lines 515-523): a nonzero component whose magnitude is
below the floor is pushed to the floor, preserving its sign. -/
def minFloor (value minV : ℚ) : ℚ :=
  if value ≠ 0 ∧ |value| < minV then (if value > 0 then minV else -minV) else value

/-- Per-lead body of `applyMinimumValues`: q is always set to 0; r and s get
their clinical floors 0.3 and 0.15. -/
def applyMinimumValuesQRS (d : QRSDeflection) : QRSDeflection :=
  ⟨0, minFloor d.r 0.3, minFloor d.s 0.15⟩

/-- `applyMinimumValues` (qrsDeflectionCalculator lines 497-527). -/
def applyMinimumValues (d : LimbLeadDeflections) : LimbLeadDeflections :=
  ⟨applyMinimumValuesQRS d.leadI, applyMinimumValuesQRS d.leadII,
   applyMinimumValuesQRS d.leadIII, applyMinimumValuesQRS d.aVR,
   applyMinimumValuesQRS d.aVL, applyMinimumValuesQRS d.aVF⟩

/-- One step of the `maxAbsValue` accumulation of
`normalizeLimbLeadDeflections` (lines 373-384): fold `Math.max` over the
absolute values of a lead's three components, in key order q, r, s. -/
def maxAbsQRS (m : ℚ) (d : QRSDeflection) : ℚ :=
  max (max (max m |d.q|) |d.r|) |d.s|

/-- The maximum absolute component value across all six leads, accumulated
from 0 in object-key order. -/
def limbMaxAbs (d : LimbLeadDeflections) : ℚ :=
  maxAbsQRS (maxAbsQRS (maxAbsQRS (maxAbsQRS (maxAbsQRS (maxAbsQRS 0
    d.leadI) d.leadII) d.leadIII) d.aVR) d.aVL) d.aVF

/-- Multiply every component of a deflection by a factor (the
`deflection[compKey] *= scaleFactor` loop body). -/
def scaleQRS (c : ℚ) (d : QRSDeflection) : QRSDeflection :=
  ⟨d.q * c, d.r * c, d.s * c⟩

/-- Multiply every component of every lead by the same factor. -/
def scaleLimb (c : ℚ) (d : LimbLeadDeflections) : LimbLeadDeflections :=
  ⟨scaleQRS c d.leadI, scaleQRS c d.leadII, scaleQRS c d.leadIII,
   scaleQRS c d.aVR, scaleQRS c d.aVL, scaleQRS c d.aVF⟩

/-- The local `MAX_DEFLECTION = 9.0` constant of
`normalizeLimbLeadDeflections` (line 355). -/
def LIMB_MAX_DEFLECTION : ℚ := 9

/-- `normalizeLimbLeadDeflections` (qrsDeflectionCalculator lines 354-400).
The sanitization pass (lines 361-368) replaces non-finite components and is
dead code over `ℚ`.  If the maximum absolute component exceeds 9.0, every
component of every lead is multiplied by the shared factor
`9.0 / maxAbsValue`. -/
def normalizeLimbLeadDeflections (d : LimbLeadDeflections) : LimbLeadDeflections :=
  let maxAbsValue := limbMaxAbs d
  if maxAbsValue > LIMB_MAX_DEFLECTION ∧ maxAbsValue > 0 then
    scaleLimb (LIMB_MAX_DEFLECTION / maxAbsValue) d
  else d

/-- The six-lead assembly of `calculateLimbLeadDeflections` (lines 428-483):
leadI and leadII are the direct `createQRSDeflection` results; leadIII, aVR,
aVL and aVF are rebuilt from their direct projections with q forced to 0.
The `isValidNumber` fixups on leadI/leadII (lines 433-436) are dead code
over `ℚ`. -/
def limbLeadRawDeflections (axisAngleIn : Option ℚ) (baseAmplitudeIn : Option ℚ) :
    LimbLeadDeflections :=
  let leadI := createQRSDeflection axisAngleIn 0 baseAmplitudeIn
  let leadII := createQRSDeflection axisAngleIn 60 baseAmplitudeIn
  let leadIIIdirect := createQRSDeflection axisAngleIn 120 baseAmplitudeIn
  let leadIII : QRSDeflection := ⟨0, leadIIIdirect.r, leadIIIdirect.s⟩
  let aVRdirect := createQRSDeflection axisAngleIn (-150) baseAmplitudeIn
  let aVR : QRSDeflection := ⟨0, aVRdirect.r, aVRdirect.s⟩
  let aVLdirect := createQRSDeflection axisAngleIn (-30) baseAmplitudeIn
  let aVL : QRSDeflection := ⟨0, aVLdirect.r, aVLdirect.s⟩
  let aVFdirect := createQRSDeflection axisAngleIn 90 baseAmplitudeIn
  let aVF : QRSDeflection := ⟨0, aVFdirect.r, aVFdirect.s⟩
  ⟨leadI, leadII, leadIII, aVR, aVL, aVF⟩

/-- `calculateLimbLeadDeflections` (qrsDeflectionCalculator lines 411-492).

Lines 412-416 inline the body of `normalizeAngle`; we reuse the named
helper.  A `NaN` axis angle (modelled `none`) passes through the `%`
arithmetic unchanged in JavaScript (every operation yields `NaN` and the
`> 180` comparison is false), which `Option.map` reproduces; it is then
replaced by 0 inside `createQRSDeflection`. -/
def calculateLimbLeadDeflections (axisAngleIn : Option ℚ) (baseAmplitudeIn : Option ℚ) :
    LimbLeadDeflections :=
  let axisAngleNorm := axisAngleIn.map normalizeAngle
  let deflections := limbLeadRawDeflections axisAngleNorm baseAmplitudeIn
  let deflectionsWithMins := applyMinimumValues deflections
  normalizeLimbLeadDeflections deflectionsWithMins

theorem normalizeLimb_of_le {d : LimbLeadDeflections} (h : limbMaxAbs d ≤ 9) :
    normalizeLimbLeadDeflections d = d := by
  unfold normalizeLimbLeadDeflections
  rw [if_neg]
  rw [LIMB_MAX_DEFLECTION]
  rintro ⟨h1, -⟩
  linarith

example :
    getLimb (calculateLimbLeadDeflections (some 60) (some 1)) .leadII =
      ⟨0, 5.832, -0.432⟩ := by
  have hn : normalizeAngle 60 = 60 := by norm_num [normalizeAngle, jsMod, jsTrunc]
  have h1 : createQRSDeflection (some 60) 0 (some 1) = ⟨0, 3.42, -1.98⟩ := by
    norm_num [createQRSDeflection, createQRSDeflectionCore, sanitizeAxisAngle,
      sanitizeBaseAmplitude, normalizeAngle, jsMod, jsTrunc]
  have h2 : createQRSDeflection (some 60) 60 (some 1) = ⟨0, 5.832, -0.432⟩ := by
    norm_num [createQRSDeflection, createQRSDeflectionCore, sanitizeAxisAngle,
      sanitizeBaseAmplitude, normalizeAngle, jsMod, jsTrunc]
  have h3 : createQRSDeflection (some 60) 120 (some 1) = ⟨0, 3.42, -1.98⟩ := by
    norm_num [createQRSDeflection, createQRSDeflectionCore, sanitizeAxisAngle,
      sanitizeBaseAmplitude, normalizeAngle, jsMod, jsTrunc]
  have h4 : createQRSDeflection (some 60) (-150) (some 1) = ⟨0, 1.26, -4.14⟩ := by
    norm_num [createQRSDeflection, createQRSDeflectionCore, sanitizeAxisAngle,
      sanitizeBaseAmplitude, normalizeAngle, jsMod, jsTrunc]
  have h5 : createQRSDeflection (some 60) (-30) (some 1) = ⟨0, 2.7, -2.7⟩ := by
    norm_num [createQRSDeflection, createQRSDeflectionCore, sanitizeAxisAngle,
      sanitizeBaseAmplitude, normalizeAngle, jsMod, jsTrunc]
  have h6 : createQRSDeflection (some 60) 90 (some 1) = ⟨0, 4.14, -1.26⟩ := by
    norm_num [createQRSDeflection, createQRSDeflectionCore, sanitizeAxisAngle,
      sanitizeBaseAmplitude, normalizeAngle, jsMod, jsTrunc]
  have hraw : limbLeadRawDeflections (Option.map normalizeAngle (some 60)) (some 1) =
      ⟨⟨0, 3.42, -1.98⟩, ⟨0, 5.832, -0.432⟩, ⟨0, 3.42, -1.98⟩,
       ⟨0, 1.26, -4.14⟩, ⟨0, 2.7, -2.7⟩, ⟨0, 4.14, -1.26⟩⟩ := by
    rw [limbLeadRawDeflections]
    simp only [Option.map_some', hn, h1, h2, h3, h4, h5, h6]
  have hpre : applyMinimumValues
      ⟨⟨0, 3.42, -1.98⟩, ⟨0, 5.832, -0.432⟩, ⟨0, 3.42, -1.98⟩,
       ⟨0, 1.26, -4.14⟩, ⟨0, 2.7, -2.7⟩, ⟨0, 4.14, -1.26⟩⟩ =
      (⟨⟨0, 3.42, -1.98⟩, ⟨0, 5.832, -0.432⟩, ⟨0, 3.42, -1.98⟩,
       ⟨0, 1.26, -4.14⟩, ⟨0, 2.7, -2.7⟩, ⟨0, 4.14, -1.26⟩⟩ : LimbLeadDeflections) := by
    norm_num [applyMinimumValues, applyMinimumValuesQRS, minFloor,
      abs_of_nonneg, abs_of_nonpos, max_eq_left, max_eq_right]
  have hmax : limbMaxAbs
      ⟨⟨0, 3.42, -1.98⟩, ⟨0, 5.832, -0.432⟩, ⟨0, 3.42, -1.98⟩,
       ⟨0, 1.26, -4.14⟩, ⟨0, 2.7, -2.7⟩, ⟨0, 4.14, -1.26⟩⟩ ≤ 9 := by
    norm_num [limbMaxAbs, maxAbsQRS,
      abs_of_nonneg, abs_of_nonpos, max_eq_left, max_eq_right]
  rw [calculateLimbLeadDeflections]
  rw [hraw, hpre, normalizeLimb_of_le hmax]
  rfl

/-- `ChestLeadPattern` enum (chestLeadDeflectionCalculator lines 43-51). -/
inductive ChestLeadPattern
  | NORMAL
  | LEFT_VENTRICULAR_HYPERTROPHY
  | RIGHT_VENTRICULAR_HYPERTROPHY
  | ANTERIOR_INFARCT
  | LATERAL_INFARCT
  | RBBB
  | LBBB
deriving DecidableEq, Repr

/-- The six chest leads, from the `ChestLeadDeflections` interface. -/
structure ChestLeadDeflections where
  V1 : QRSDeflection
  V2 : QRSDeflection
  V3 : QRSDeflection
  V4 : QRSDeflection
  V5 : QRSDeflection
  V6 : QRSDeflection
deriving DecidableEq, Repr

/-- Index type for the six chest leads (the `CHEST_LEADS` array order). -/
inductive ChestLead
  | V1 | V2 | V3 | V4 | V5 | V6
deriving DecidableEq, Repr

/-- Field access to a `ChestLeadDeflections` by lead index. -/
def getChest (d : ChestLeadDeflections) : ChestLead → QRSDeflection
  | .V1 => d.V1
  | .V2 => d.V2
  | .V3 => d.V3
  | .V4 => d.V4
  | .V5 => d.V5
  | .V6 => d.V6

/-- `CHEST_LEAD_PROGRESSION` (lines 19-26): position of each chest lead
along the V1-V6 progression. -/
def chestLeadPosition : ChestLead → ℚ
  | .V1 => 0
  | .V2 => 0.2
  | .V3 => 0.4
  | .V4 => 0.6
  | .V5 => 0.8
  | .V6 => 1

/-- The pattern-dependent position ladder of `generateChestLeadDeflection`
(lines 67-191), producing the `(r, s, q)` values assigned inside each
pattern branch BEFORE the Normal pattern's axis modulation and before the
final clamps.  The `LATERAL_INFARCT` member of the enum has no branch in
the source, so it falls through to the initial `q = r = s = 0` defaults.
Factoring this angle-independent ladder out of the branch on the axis
modulation is the only restructuring relative to the source (the source
nests the Normal ladder and the modulation in one block). -/
def chestPatternBase (position : ℚ) (patternType : ChestLeadPattern)
    (baseAmplitude : ℚ) : ℚ × ℚ × ℚ :=
  if patternType = ChestLeadPattern.NORMAL then
    if position ≤ 0.2 then
      (baseAmplitude * 0.2 * (1 + position * 2),
       -(baseAmplitude * (0.8 - position * 0.5)),
       -(baseAmplitude * 0.05))
    else if position ≤ 0.6 then
      let transitionFactor := (position - 0.2) / 0.4
      (baseAmplitude * (0.4 + transitionFactor * 0.4),
       -(baseAmplitude * (0.7 - transitionFactor * 0.5)),
       -(baseAmplitude * (0.05 + transitionFactor * 0.1)))
    else
      let lateralFactor := (position - 0.6) / 0.4
      (baseAmplitude * (0.8 + lateralFactor * 0.1),
       -(baseAmplitude * (0.2 - lateralFactor * 0.15)),
       -(baseAmplitude * (0.15 + lateralFactor * 0.05)))
  else if patternType = ChestLeadPattern.LEFT_VENTRICULAR_HYPERTROPHY then
    if position ≤ 0.2 then
      (baseAmplitude * 0.2, -(baseAmplitude * 0.9), -(baseAmplitude * 0.05))
    else if position ≤ 0.6 then
      let transitionFactor := (position - 0.2) / 0.4
      (baseAmplitude * (0.2 + transitionFactor * 0.8),
       -(baseAmplitude * (0.9 - transitionFactor * 0.4)),
       -(baseAmplitude * (0.05 + transitionFactor * 0.15)))
    else
      (baseAmplitude * 1.5, -(baseAmplitude * 0.2), -(baseAmplitude * 0.25))
  else if patternType = ChestLeadPattern.RIGHT_VENTRICULAR_HYPERTROPHY then
    if position ≤ 0.2 then
      (baseAmplitude * 0.8, -(baseAmplitude * 0.4), -(baseAmplitude * 0.05))
    else if position ≤ 0.6 then
      let transitionFactor := (position - 0.2) / 0.4
      (baseAmplitude * (0.8 - transitionFactor * 0.4),
       -(baseAmplitude * (0.4 + transitionFactor * 0.3)),
       -(baseAmplitude * 0.05))
    else
      (baseAmplitude * 0.4, -(baseAmplitude * 0.7), -(baseAmplitude * 0.05))
  else if patternType = ChestLeadPattern.ANTERIOR_INFARCT then
    if position ≤ 0.6 then
      (baseAmplitude * 0.1, -(baseAmplitude * 0.9), -(baseAmplitude * 0.3))
    else
      let lateralFactor := (position - 0.6) / 0.4
      (baseAmplitude * (0.1 + lateralFactor * 0.7),
       -(baseAmplitude * (0.9 - lateralFactor * 0.7)),
       -(baseAmplitude * (0.3 - lateralFactor * 0.2)))
  else if patternType = ChestLeadPattern.RBBB then
    if position ≤ 0.2 then
      (baseAmplitude * 0.9, -(baseAmplitude * 0.5), -(baseAmplitude * 0.05))
    else if position ≤ 0.6 then
      let transitionFactor := (position - 0.2) / 0.4
      (baseAmplitude * (0.9 - transitionFactor * 0.3),
       -(baseAmplitude * (0.5 + transitionFactor * 0.2)),
       -(baseAmplitude * (0.05 + transitionFactor * 0.1)))
    else
      (baseAmplitude * 0.6, -(baseAmplitude * 0.7), -(baseAmplitude * 0.15))
  else if patternType = ChestLeadPattern.LBBB then
    if position ≤ 0.2 then
      (baseAmplitude * 0.1, -(baseAmplitude * 0.9), -(baseAmplitude * 0.2))
    else if position ≤ 0.6 then
      let transitionFactor := (position - 0.2) / 0.4
      (baseAmplitude * (0.1 + transitionFactor * 0.7),
       -(baseAmplitude * (0.9 - transitionFactor * 0.7)),
       -(baseAmplitude * 0.2))
    else
      (baseAmplitude * 1.2, -(baseAmplitude * 0.1), -(baseAmplitude * 0.2))
  else
    (0, 0, 0)

/-- `generateChestLeadDeflection` (chestLeadDeflectionCalculator lines
61-199) on finite inputs.  `cosd x` abstracts
`Math.cos(x * Math.PI / 180)`; the source computes
`Math.cos((qrsAxisAngle - 60) * Math.PI / 180)`, modelled `cosd
(qrsAxisAngle - 60)`.  The axis modulation applies only in the Normal
branch; the final lines clamp q to `[-base, 0]`, r to `[0, 2*base]` and s
to `[-2*base, 0]`. -/
def generateChestLeadDeflection (cosd : ℚ → ℚ) (position qrsAxisAngle : ℚ)
    (patternType : ChestLeadPattern) (baseAmplitude : ℚ) : QRSDeflection :=
  let rsq := chestPatternBase position patternType baseAmplitude
  let rsq :=
    if patternType = ChestLeadPattern.NORMAL then
      let axisEffect := cosd (qrsAxisAngle - 60)
      let axisScaleFactor := 1 + axisEffect * position * 0.3
      (rsq.1 * axisScaleFactor, rsq.2.1 * axisScaleFactor, rsq.2.2 * axisScaleFactor)
    else rsq
  -- q = Math.max(-baseAmplitude, Math.min(0, q));
  let q := max (-baseAmplitude) (min 0 rsq.2.2)
  -- r = Math.max(0, Math.min(baseAmplitude * 2, r));
  let r := max 0 (min (baseAmplitude * 2) rsq.1)
  -- s = Math.max(-baseAmplitude * 2, Math.min(0, s));
  let s := max (-(baseAmplitude * 2)) (min 0 rsq.2.1)
  ⟨q, r, s⟩

/-- The `totalMagnitude` of a deflection used by the chest normalizer:
`Math.abs(q) + r + Math.abs(s)` (line 237). -/
def chestSum (d : QRSDeflection) : ℚ := |d.q| + d.r + |d.s|

/-- The inner `normalizeQRS` of `normalizeDeflections` (lines 235-250).
`maxDeflection` stands for the `MAX_DEFLECTION` constant imported from
`axisConstants`; the module defining its numeric value is not part of the
sources here, and the spec describes it only as "a shared constant", so it
is kept as an explicit parameter. -/
def normalizeQRS (maxDeflection : ℚ) (qrs : QRSDeflection) : QRSDeflection :=
  let totalMagnitude := chestSum qrs
  if totalMagnitude > maxDeflection then
    let scaleFactor := maxDeflection / totalMagnitude
    ⟨qrs.q * scaleFactor, qrs.r * scaleFactor, qrs.s * scaleFactor⟩
  else qrs

/-- `normalizeDeflections` (chestLeadDeflectionCalculator lines 230-259):
each lead is normalized independently. -/
def normalizeDeflections (maxDeflection : ℚ) (d : ChestLeadDeflections) :
    ChestLeadDeflections :=
  ⟨normalizeQRS maxDeflection d.V1, normalizeQRS maxDeflection d.V2,
   normalizeQRS maxDeflection d.V3, normalizeQRS maxDeflection d.V4,
   normalizeQRS maxDeflection d.V5, normalizeQRS maxDeflection d.V6⟩

/-- The per-lead generation loop of `calculateChestLeadDeflections` (lines
212-220): `generateChestLeadDeflection` at each `CHEST_LEAD_PROGRESSION`
position, with the default `baseAmplitude = 10`. -/
def chestLeadRawDeflections (cosd : ℚ → ℚ) (qrsAxisAngle : ℚ)
    (patternType : ChestLeadPattern) : ChestLeadDeflections :=
  ⟨generateChestLeadDeflection cosd 0 qrsAxisAngle patternType 10,
   generateChestLeadDeflection cosd 0.2 qrsAxisAngle patternType 10,
   generateChestLeadDeflection cosd 0.4 qrsAxisAngle patternType 10,
   generateChestLeadDeflection cosd 0.6 qrsAxisAngle patternType 10,
   generateChestLeadDeflection cosd 0.8 qrsAxisAngle patternType 10,
   generateChestLeadDeflection cosd 1 qrsAxisAngle patternType 10⟩

/-- `calculateChestLeadDeflections` (lines 207-223) on finite inputs. -/
def calculateChestLeadDeflections (cosd : ℚ → ℚ) (maxDeflection : ℚ)
    (qrsAxisAngle : ℚ) (patternType : ChestLeadPattern) : ChestLeadDeflections :=
  normalizeDeflections maxDeflection (chestLeadRawDeflections cosd qrsAxisAngle patternType)

/-- Addition on JavaScript numbers that may be `NaN`: `NaN` propagates. -/
def oAdd : Option ℚ → Option ℚ → Option ℚ
  | some a, some b => some (a + b)
  | _, _ => none

/-- Multiplication on JavaScript numbers that may be `NaN`: `NaN`
propagates (in JavaScript even `NaN * 0` is `NaN`). -/
def oMul : Option ℚ → Option ℚ → Option ℚ
  | some a, some b => some (a * b)
  | _, _ => none

/-- `Math.min` on possibly-`NaN` numbers: returns `NaN` if any argument is
`NaN`. -/
def oMin : Option ℚ → Option ℚ → Option ℚ
  | some a, some b => some (min a b)
  | _, _ => none

/-- `Math.max` on possibly-`NaN` numbers: returns `NaN` if any argument is
`NaN`. -/
def oMax : Option ℚ → Option ℚ → Option ℚ
  | some a, some b => some (max a b)
  | _, _ => none

/-- `Math.abs` on a possibly-`NaN` number. -/
def oAbs : Option ℚ → Option ℚ
  | some a => some |a|
  | none => none

/-- A QRS deflection whose components are JavaScript numbers that may be
`NaN` (`none`). -/
structure QRSDeflectionN where
  q : Option ℚ
  r : Option ℚ
  s : Option ℚ
deriving DecidableEq, Repr

/-- Six chest leads with possibly-`NaN` components. -/
structure ChestLeadDeflectionsN where
  V1 : QRSDeflectionN
  V2 : QRSDeflectionN
  V3 : QRSDeflectionN
  V4 : QRSDeflectionN
  V5 : QRSDeflectionN
  V6 : QRSDeflectionN
deriving DecidableEq, Repr

/-- Field access to a `ChestLeadDeflectionsN` by lead index. -/
def getChestN (d : ChestLeadDeflectionsN) : ChestLead → QRSDeflectionN
  | .V1 => d.V1
  | .V2 => d.V2
  | .V3 => d.V3
  | .V4 => d.V4
  | .V5 => d.V5
  | .V6 => d.V6

/-- `generateChestLeadDeflection` on a possibly-`NaN` axis angle.  The
position, pattern and base amplitude are always finite at every call site,
so only the values touched by the axis angle are `Option`-typed: in the
Normal branch `Math.cos((NaN - 60) * PI / 180)` is `NaN`
(`Option.map` of `none`), and the subsequent multiplications and the
`Math.max`/`Math.min` clamps all propagate `NaN`, exactly as in
JavaScript.  Non-Normal branches never read the axis angle. -/
def generateChestLeadDeflectionJS (cosd : ℚ → ℚ) (position : ℚ)
    (qrsAxisAngleIn : Option ℚ) (patternType : ChestLeadPattern)
    (baseAmplitude : ℚ) : QRSDeflectionN :=
  let rsq0 := chestPatternBase position patternType baseAmplitude
  let rsq : Option ℚ × Option ℚ × Option ℚ :=
    if patternType = ChestLeadPattern.NORMAL then
      let axisEffect := Option.map (fun a => cosd (a - 60)) qrsAxisAngleIn
      let axisScaleFactor := oAdd (some 1) (oMul (oMul axisEffect (some position)) (some 0.3))
      (oMul (some rsq0.1) axisScaleFactor,
       oMul (some rsq0.2.1) axisScaleFactor,
       oMul (some rsq0.2.2) axisScaleFactor)
    else (some rsq0.1, some rsq0.2.1, some rsq0.2.2)
  let q := oMax (some (-baseAmplitude)) (oMin (some 0) rsq.2.2)
  let r := oMax (some 0) (oMin (some (baseAmplitude * 2)) rsq.1)
  let s := oMax (some (-(baseAmplitude * 2))) (oMin (some 0) rsq.2.1)
  ⟨q, r, s⟩

/-- The inner `normalizeQRS` on possibly-`NaN` components.  When the total
magnitude is `NaN`, the JavaScript comparison `NaN > MAX_DEFLECTION` is
false, so the lead is returned unchanged (still `NaN`). -/
def normalizeQRSJS (maxDeflection : ℚ) (qrs : QRSDeflectionN) : QRSDeflectionN :=
  let totalMagnitude := oAdd (oAdd (oAbs qrs.q) qrs.r) (oAbs qrs.s)
  match totalMagnitude with
  | some t =>
    if t > maxDeflection then
      let scaleFactor := maxDeflection / t
      ⟨oMul qrs.q (some scaleFactor), oMul qrs.r (some scaleFactor),
       oMul qrs.s (some scaleFactor)⟩
    else qrs
  | none => qrs

/-- `calculateChestLeadDeflections` on a possibly-`NaN` axis angle. -/
def calculateChestLeadDeflectionsJS (cosd : ℚ → ℚ) (maxDeflection : ℚ)
    (qrsAxisAngleIn : Option ℚ) (patternType : ChestLeadPattern) :
    ChestLeadDeflectionsN :=
  let d : ChestLeadDeflectionsN :=
    ⟨generateChestLeadDeflectionJS cosd 0 qrsAxisAngleIn patternType 10,
     generateChestLeadDeflectionJS cosd 0.2 qrsAxisAngleIn patternType 10,
     generateChestLeadDeflectionJS cosd 0.4 qrsAxisAngleIn patternType 10,
     generateChestLeadDeflectionJS cosd 0.6 qrsAxisAngleIn patternType 10,
     generateChestLeadDeflectionJS cosd 0.8 qrsAxisAngleIn patternType 10,
     generateChestLeadDeflectionJS cosd 1 qrsAxisAngleIn patternType 10⟩
  ⟨normalizeQRSJS maxDeflection d.V1, normalizeQRSJS maxDeflection d.V2,
   normalizeQRSJS maxDeflection d.V3, normalizeQRSJS maxDeflection d.V4,
   normalizeQRSJS maxDeflection d.V5, normalizeQRSJS maxDeflection d.V6⟩

/-- The normalization `((axis % 360) + 540) % 360 - 180` appearing inline in
`classifyAxis` (axisCalculations line 114), `classifyAxisValue`
(axisConstants) and `isAxisInRange`. -/
def axisNorm (axis : ℚ) : ℚ :=
  jsMod (jsMod axis 360 + 540) 360 - 180

/-- `classifyAxis` (axisCalculations lines 110-120).  A `null` axis
(`calculateQRSAxis` returns `number | null`) is modelled as `none`. -/
def classifyAxis (axis : Option ℚ) : String :=
  match axis with
  | none => "Indeterminate"
  | some a =>
    let normalizedAxis := axisNorm a
    if -30 ≤ normalizedAxis ∧ normalizedAxis ≤ 90 then "Normal"
    else if 90 < normalizedAxis ∧ normalizedAxis ≤ 180 then "Right Axis Deviation"
    else if -90 ≤ normalizedAxis ∧ normalizedAxis < -30 then "Left Axis Deviation"
    else "Extreme Axis Deviation"

/-- One entry of the `AXIS_RANGES` table (axisConstants). -/
structure AxisRange where
  MIN : ℚ
  MAX : ℚ

/-- `AXIS_RANGES.NORMAL` = `{ MIN: -30, MAX: 90 }`. -/
def AXIS_RANGES_NORMAL : AxisRange := ⟨-30, 90⟩

/-- `AXIS_RANGES.LEFT` = `{ MIN: -90, MAX: -30 }`. -/
def AXIS_RANGES_LEFT : AxisRange := ⟨-90, -30⟩

/-- `AXIS_RANGES.RIGHT` = `{ MIN: 90, MAX: 180 }`. -/
def AXIS_RANGES_RIGHT : AxisRange := ⟨90, 180⟩

/-- `AXIS_RANGES.EXTREME` = `{ MIN: -180, MAX: -90 }`. -/
def AXIS_RANGES_EXTREME : AxisRange := ⟨-180, -90⟩

/-- `classifyAxisValue` (axisConstants): the same branch ladder as
`classifyAxis`, written against the `AXIS_RANGES` constants. -/
def classifyAxisValue (axis : Option ℚ) : String :=
  match axis with
  | none => "Indeterminate"
  | some a =>
    let normalizedAxis := axisNorm a
    if AXIS_RANGES_NORMAL.MIN ≤ normalizedAxis ∧ normalizedAxis ≤ AXIS_RANGES_NORMAL.MAX then
      "Normal"
    else if AXIS_RANGES_RIGHT.MIN < normalizedAxis ∧ normalizedAxis ≤ AXIS_RANGES_RIGHT.MAX then
      "Right Axis Deviation"
    else if AXIS_RANGES_LEFT.MIN ≤ normalizedAxis ∧ normalizedAxis < AXIS_RANGES_LEFT.MAX then
      "Left Axis Deviation"
    else "Extreme Axis Deviation"

theorem axisNorm_sub_int (a : ℚ) : ∃ k : ℤ, axisNorm a = a - 360 * k := by
  unfold axisNorm
  obtain ⟨k1, hk1⟩ := jsMod_eq_sub_int a 360
  obtain ⟨k2, hk2⟩ := jsMod_eq_sub_int (jsMod a 360 + 540) 360
  exact ⟨k1 + k2 - 1, by push_cast; linarith⟩

theorem axisNorm_bounds (a : ℚ) : -180 ≤ axisNorm a ∧ axisNorm a < 180 := by
  unfold axisNorm
  have h1 := (jsMod_360_bounds a).1
  have hy : (0 : ℚ) ≤ jsMod a 360 + 540 := by linarith
  obtain ⟨hlo, hhi⟩ := jsMod_360_nonneg_bounds hy
  constructor <;> linarith

/-- An input congruent to 180 modulo 360 normalizes to exactly -180. -/
theorem axisNorm_of_half_turn (a : ℚ) (k : ℤ) (h : a = 180 + 360 * k) :
    axisNorm a = -180 := by
  obtain ⟨m, hm⟩ := axisNorm_sub_int a
  obtain ⟨hlo, hhi⟩ := axisNorm_bounds a
  have hj : k - m = -1 := by
    have hlt : ((k - m : ℤ) : ℚ) < 0 := by push_cast; linarith
    have hge : (-1 : ℚ) ≤ ((k - m : ℤ) : ℚ) := by push_cast; linarith
    have hlt' : (k - m : ℤ) < 0 := by exact_mod_cast hlt
    have hge' : (-1 : ℤ) ≤ (k - m : ℤ) := by exact_mod_cast hge
    omega
  have : ((k - m : ℤ) : ℚ) = -1 := by exact_mod_cast congrArg Int.cast hj
  push_cast at this
  linarith [hm, this]

/-- C3 (corrected): `classifyAxis` and `classifyAxisValue` normalize the
input with `((axis % 360) + 540) % 360 - 180`, which lands in the half-open
interval `[-180, 180)` — so +180 itself never occurs as a normalized value.
The classifications correspond exactly to: Normal on `[-30, 90]`, Right
Axis Deviation on `(90, 180]` (equivalently `(90, 180)`), Left Axis
Deviation on `[-90, -30)`, and Extreme Axis Deviation on `[-180, -90)`
(the claim's `(-180, -90)` misses the boundary value -180).  Both
functions agree on every input, and an input congruent to 180 modulo 360
normalizes to -180 and is classified "Extreme Axis Deviation", not "Right
Axis Deviation" as the claim states. -/
theorem C3_classification_ranges (x : ℚ) :
    (classifyAxis (some x) = "Normal" ↔ -30 ≤ axisNorm x ∧ axisNorm x ≤ 90) ∧
    (classifyAxis (some x) = "Right Axis Deviation" ↔
      90 < axisNorm x ∧ axisNorm x ≤ 180) ∧
    (classifyAxis (some x) = "Left Axis Deviation" ↔
      -90 ≤ axisNorm x ∧ axisNorm x < -30) ∧
    (classifyAxis (some x) = "Extreme Axis Deviation" ↔
      -180 ≤ axisNorm x ∧ axisNorm x < -90) ∧
    classifyAxisValue (some x) = classifyAxis (some x) ∧
    (∀ k : ℤ, x = 180 + 360 * k →
      classifyAxis (some x) = "Extreme Axis Deviation") := by
  obtain ⟨hlo, hhi⟩ := axisNorm_bounds x
  simp only [classifyAxis, classifyAxisValue, AXIS_RANGES_NORMAL,
    AXIS_RANGES_RIGHT, AXIS_RANGES_LEFT, AXIS_RANGES_EXTREME]
  split_ifs with h1 h2 h3
  · refine ⟨by simp [h1], ?_, ?_, ?_, trivial, ?_⟩
    · constructor
      · intro h; exact absurd h (by decide)
      · rintro ⟨hc, -⟩; exact absurd hc (by push_neg; exact h1.2)
    · constructor
      · intro h; exact absurd h (by decide)
      · rintro ⟨-, hc⟩; exact absurd hc (by push_neg; exact h1.1)
    · constructor
      · intro h; exact absurd h (by decide)
      · rintro ⟨-, hc⟩; exact absurd hc (by push_neg; linarith [h1.1])
    · intro k hk
      have := axisNorm_of_half_turn x k hk
      exact absurd h1 (by rw [this]; push_neg; intro h; linarith)
  · refine ⟨?_, by simp [h2], ?_, ?_, trivial, ?_⟩
    · constructor
      · intro h; exact absurd h (by decide)
      · intro hc; exact absurd hc h1
    · constructor
      · intro h; exact absurd h (by decide)
      · rintro ⟨-, hc⟩; exact absurd hc (by push_neg; linarith [h2.1])
    · constructor
      · intro h; exact absurd h (by decide)
      · rintro ⟨-, hc⟩; exact absurd hc (by push_neg; linarith [h2.1])
    · intro k hk
      have := axisNorm_of_half_turn x k hk
      exact absurd h2 (by rw [this]; push_neg; intro h; linarith)
  · refine ⟨?_, ?_, by simp [h3], ?_, trivial, ?_⟩
    · constructor
      · intro h; exact absurd h (by decide)
      · intro hc; exact absurd hc h1
    · constructor
      · intro h; exact absurd h (by decide)
      · intro hc; exact absurd hc h2
    · constructor
      · intro h; exact absurd h (by decide)
      · rintro ⟨-, hc⟩; exact absurd hc (by push_neg; linarith [h3.1])
    · intro k hk
      have := axisNorm_of_half_turn x k hk
      exact absurd h3 (by rw [this]; push_neg; intro h; linarith)
  · push_neg at h1 h2 h3
    refine ⟨?_, ?_, ?_, ?_, trivial, fun _ _ => rfl⟩
    · constructor
      · intro h; exact absurd h (by decide)
      · rintro ⟨hc1, hc2⟩; exact absurd hc2 (by push_neg; exact h1 hc1)
    · constructor
      · intro h; exact absurd h (by decide)
      · rintro ⟨hc1, hc2⟩; exact absurd hc2 (by push_neg; exact h2 hc1)
    · constructor
      · intro h; exact absurd h (by decide)
      · rintro ⟨hc1, hc2⟩; exact absurd hc2 (by push_neg; exact h3 hc1)
    · constructor
      · intro _
        constructor
        · exact hlo
        · by_contra hc
          push_neg at hc
          rcases le_or_lt (axisNorm x) 90 with h90 | h90
          · rcases lt_or_le (axisNorm x) (-30) with h30 | h30
            · exact absurd (h3 (by linarith)) (by push_neg; exact h30)
            · exact absurd (h1 h30) (by push_neg; exact h90)
          · exact absurd (h2 h90) (by push_neg; linarith)
      · intro _; rfl

/-- C3 counterexample: on the concrete input 180 (which is congruent to 180
modulo 360) both classifiers return "Extreme Axis Deviation", refuting the
claim's assertion that such an input is classified "Right Axis
Deviation". -/
theorem C3_at_180 :
    classifyAxis (some 180) = "Extreme Axis Deviation" ∧
    classifyAxis (some 180) ≠ "Right Axis Deviation" ∧
    classifyAxisValue (some 180) = "Extreme Axis Deviation" := by
  have h : axisNorm 180 = -180 := by norm_num [axisNorm, jsMod, jsTrunc]
  have hc : classifyAxis (some 180) = "Extreme Axis Deviation" := by
    norm_num [classifyAxis, h]
  have hv : classifyAxisValue (some 180) = "Extreme Axis Deviation" := by
    norm_num [classifyAxisValue, h, AXIS_RANGES_NORMAL, AXIS_RANGES_RIGHT,
      AXIS_RANGES_LEFT]
  exact ⟨hc, by rw [hc]; decide, hv⟩

/-- C3 witness: the amended theorem applied at the concrete input 100,
whose normalized value 100 lies in the Right Axis Deviation range. -/
theorem C3_witness :
    classifyAxis (some 100) = "Right Axis Deviation" :=
  (C3_classification_ranges 100).2.1.mpr
    (by norm_num [axisNorm, jsMod, jsTrunc])

theorem sanitizeBaseAmplitude_pos (b : Option ℚ) : 0 < sanitizeBaseAmplitude b := by
  cases b with
  | none => norm_num [sanitizeBaseAmplitude]
  | some x =>
    simp only [sanitizeBaseAmplitude]
    split_ifs with h
    · norm_num
    · push_neg at h; exact h

theorem createQRSDeflectionCore_signs (a L b : ℚ) (hb : 0 < b) :
    (createQRSDeflectionCore a L b).q = 0 ∧
    0 < (createQRSDeflectionCore a L b).r ∧
    (createQRSDeflectionCore a L b).s < 0 := by
  unfold createQRSDeflectionCore
  obtain ⟨hd1, hd2⟩ := normalizeAngle_bounds (L - a)
  have hx0 : 0 ≤ |normalizeAngle (L - a)| := abs_nonneg _
  have hx180 : |normalizeAngle (L - a)| ≤ 180 :=
    abs_le.mpr ⟨by linarith, hd2⟩
  refine ⟨rfl, ?_, ?_⟩ <;>
    (dsimp only; split_ifs <;> nlinarith [hb, hx0, hx180])

theorem createQRSDeflection_signs (aIn : Option ℚ) (L : ℚ) (bIn : Option ℚ) :
    (createQRSDeflection aIn L bIn).q = 0 ∧
    0 < (createQRSDeflection aIn L bIn).r ∧
    (createQRSDeflection aIn L bIn).s < 0 :=
  createQRSDeflectionCore_signs _ _ _ (sanitizeBaseAmplitude_pos bIn)

theorem getLimb_limbLeadRawDeflections (aIn bIn : Option ℚ) (l : LimbLead) :
    getLimb (limbLeadRawDeflections aIn bIn) l =
      ⟨0, (createQRSDeflection aIn (limbLeadAngle l) bIn).r,
          (createQRSDeflection aIn (limbLeadAngle l) bIn).s⟩ := by
  have hq := (createQRSDeflection_signs aIn (limbLeadAngle l) bIn).1
  cases l <;>
    simp only [getLimb, limbLeadRawDeflections, limbLeadAngle] <;>
    exact QRSDeflection.ext (by simpa [limbLeadAngle] using hq) rfl rfl

theorem getLimb_applyMinimumValues (d : LimbLeadDeflections) (l : LimbLead) :
    getLimb (applyMinimumValues d) l = applyMinimumValuesQRS (getLimb d l) := by
  cases l <;> rfl

theorem getLimb_scaleLimb (c : ℚ) (d : LimbLeadDeflections) (l : LimbLead) :
    getLimb (scaleLimb c d) l = scaleQRS c (getLimb d l) := by
  cases l <;> rfl

theorem minFloor_pos {v m : ℚ} (hv : 0 < v) (hm : 0 < m) : 0 < minFloor v m := by
  unfold minFloor
  by_cases h1 : v ≠ 0 ∧ |v| < m
  · rw [if_pos h1, if_pos hv]
    exact hm
  · rw [if_neg h1]
    exact hv

theorem minFloor_neg {v m : ℚ} (hv : v < 0) (hm : 0 < m) : minFloor v m < 0 := by
  unfold minFloor
  by_cases h1 : v ≠ 0 ∧ |v| < m
  · rw [if_pos h1, if_neg (show ¬v > 0 by push_neg; exact hv.le)]
    linarith
  · rw [if_neg h1]
    exact hv

/-- The final limb-lead pipeline output: q is exactly 0, r strictly
positive, s strictly negative, on every lead and every input. -/
theorem limbFinal_spec (aIn bIn : Option ℚ) (l : LimbLead) :
    (getLimb (calculateLimbLeadDeflections aIn bIn) l).q = 0 ∧
    0 < (getLimb (calculateLimbLeadDeflections aIn bIn) l).r ∧
    (getLimb (calculateLimbLeadDeflections aIn bIn) l).s < 0 := by
  unfold calculateLimbLeadDeflections
  set pre := applyMinimumValues (limbLeadRawDeflections (aIn.map normalizeAngle) bIn) with hpre
  have hlead : (getLimb pre l).q = 0 ∧ 0 < (getLimb pre l).r ∧ (getLimb pre l).s < 0 := by
    rw [hpre, getLimb_applyMinimumValues, getLimb_limbLeadRawDeflections]
    obtain ⟨-, hr, hs⟩ :=
      createQRSDeflection_signs (aIn.map normalizeAngle) (limbLeadAngle l) bIn
    exact ⟨rfl, minFloor_pos hr (by norm_num), minFloor_neg hs (by norm_num)⟩
  unfold normalizeLimbLeadDeflections
  dsimp only
  split_ifs with hc
  · rw [getLimb_scaleLimb]
    have hfac : 0 < LIMB_MAX_DEFLECTION / limbMaxAbs pre :=
      div_pos (by norm_num [LIMB_MAX_DEFLECTION]) hc.2
    unfold scaleQRS
    obtain ⟨hq, hr, hs⟩ := hlead
    exact ⟨by rw [hq]; ring, by positivity, mul_neg_of_neg_of_pos hs hfac⟩
  · exact hlead

/-- A concrete, computable stand-in for the abstracted cosine-of-degrees
used to instantiate witnesses; it satisfies the only fact about the cosine
that any theorem here assumes, `cosStub 0 = 1`. -/
def cosStub : ℚ → ℚ := fun x => if x = 0 then 1 else 0

theorem cosStub_zero : cosStub 0 = 1 := by norm_num [cosStub]

theorem getChest_normalizeDeflections (maxD : ℚ) (d : ChestLeadDeflections)
    (v : ChestLead) :
    getChest (normalizeDeflections maxD d) v = normalizeQRS maxD (getChest d v) := by
  cases v <;> rfl

theorem getChest_chestLeadRawDeflections (cosd : ℚ → ℚ) (a : ℚ)
    (p : ChestLeadPattern) (v : ChestLead) :
    getChest (chestLeadRawDeflections cosd a p) v =
      generateChestLeadDeflection cosd (chestLeadPosition v) a p 10 := by
  cases v <;> rfl

theorem generateChest_signs (cosd : ℚ → ℚ) (pos a : ℚ) (p : ChestLeadPattern)
    {b : ℚ} (hb : 0 ≤ b) :
    (generateChestLeadDeflection cosd pos a p b).q ≤ 0 ∧
    0 ≤ (generateChestLeadDeflection cosd pos a p b).r ∧
    (generateChestLeadDeflection cosd pos a p b).s ≤ 0 := by
  unfold generateChestLeadDeflection
  dsimp only
  refine ⟨?_, ?_, ?_⟩
  · exact max_le (by linarith) (min_le_left _ _)
  · exact le_max_left _ _
  · exact max_le (by linarith) (min_le_left _ _)

theorem normalizeQRS_signs {maxD : ℚ} (hm : 0 < maxD) {qrs : QRSDeflection}
    (h : qrs.q ≤ 0 ∧ 0 ≤ qrs.r ∧ qrs.s ≤ 0) :
    (normalizeQRS maxD qrs).q ≤ 0 ∧
    0 ≤ (normalizeQRS maxD qrs).r ∧
    (normalizeQRS maxD qrs).s ≤ 0 := by
  unfold normalizeQRS
  dsimp only
  split_ifs with hc
  · have ht : 0 < chestSum qrs := lt_trans hm hc
    have hf : 0 ≤ maxD / chestSum qrs := (div_pos hm ht).le
    exact ⟨mul_nonpos_of_nonpos_of_nonneg h.1 hf,
           mul_nonneg h.2.1 hf,
           mul_nonpos_of_nonpos_of_nonneg h.2.2 hf⟩
  · exact h

/-- If a lead's total magnitude exceeds the ceiling, the (per-lead)
normalization brings it to exactly the ceiling. -/
theorem normalizeQRS_sum_eq {maxD : ℚ} (hm : 0 < maxD) (qrs : QRSDeflection)
    (h : chestSum qrs > maxD) : chestSum (normalizeQRS maxD qrs) = maxD := by
  have ht : 0 < chestSum qrs := lt_trans hm h
  unfold normalizeQRS
  dsimp only
  rw [if_pos h]
  show |qrs.q * (maxD / chestSum qrs)| + qrs.r * (maxD / chestSum qrs) +
      |qrs.s * (maxD / chestSum qrs)| = maxD
  rw [abs_mul, abs_mul, abs_of_pos (div_pos hm ht)]
  have hexp : (|qrs.q| + qrs.r + |qrs.s|) * (maxD / chestSum qrs) = maxD := by
    rw [show |qrs.q| + qrs.r + |qrs.s| = chestSum qrs from rfl]
    field_simp
  linarith [hexp]

theorem normalizeQRS_of_le {maxD : ℚ} (qrs : QRSDeflection)
    (h : chestSum qrs ≤ maxD) : normalizeQRS maxD qrs = qrs := by
  unfold normalizeQRS
  dsimp only
  rw [if_neg (by push_neg; exact h)]

/-- C4: for every axis angle (even NaN) and every base amplitude, all six
lead triples returned by `calculateLimbLeadDeflections` have q exactly 0
(`applyMinimumValues` forces q to 0 and the global normalization scales it
by a factor, keeping it 0). -/
theorem C4_limb_q_zero (axisAngleIn baseAmplitudeIn : Option ℚ) (l : LimbLead) :
    (getLimb (calculateLimbLeadDeflections axisAngleIn baseAmplitudeIn) l).q = 0 :=
  (limbFinal_spec axisAngleIn baseAmplitudeIn l).1

/-- C2: for every finite axis angle, base amplitude and chest pattern, and
every positive chest ceiling, each of the six triples from both engines
satisfies q ≤ 0, r ≥ 0 and s ≤ 0.  (The chest bound holds for an arbitrary
cosine function; the limb engine uses no trigonometry at all.) -/
theorem C2_sign_invariants (a b : ℚ) (cosd : ℚ → ℚ) (maxDeflection : ℚ)
    (hm : 0 < maxDeflection) (p : ChestLeadPattern) :
    (∀ l : LimbLead,
      (getLimb (calculateLimbLeadDeflections (some a) (some b)) l).q ≤ 0 ∧
      0 ≤ (getLimb (calculateLimbLeadDeflections (some a) (some b)) l).r ∧
      (getLimb (calculateLimbLeadDeflections (some a) (some b)) l).s ≤ 0) ∧
    (∀ v : ChestLead,
      (getChest (calculateChestLeadDeflections cosd maxDeflection a p) v).q ≤ 0 ∧
      0 ≤ (getChest (calculateChestLeadDeflections cosd maxDeflection a p) v).r ∧
      (getChest (calculateChestLeadDeflections cosd maxDeflection a p) v).s ≤ 0) := by
  constructor
  · intro l
    obtain ⟨hq, hr, hs⟩ := limbFinal_spec (some a) (some b) l
    exact ⟨le_of_eq hq, hr.le, hs.le⟩
  · intro v
    rw [calculateChestLeadDeflections, getChest_normalizeDeflections,
        getChest_chestLeadRawDeflections]
    exact normalizeQRS_signs hm (generateChest_signs cosd _ a p (by norm_num))

/-- C2 witness: the sign invariants at axis angle 30, base amplitude 2,
ceiling 10, Normal pattern, on leadI and V1. -/
theorem C2_sign_invariants_witness :
    (0:ℚ) < 10 ∧
    ((getLimb (calculateLimbLeadDeflections (some 30) (some 2)) .leadI).q ≤ 0 ∧
      0 ≤ (getLimb (calculateLimbLeadDeflections (some 30) (some 2)) .leadI).r ∧
      (getLimb (calculateLimbLeadDeflections (some 30) (some 2)) .leadI).s ≤ 0) ∧
    ((getChest (calculateChestLeadDeflections cosStub 10 30 .NORMAL) .V1).q ≤ 0 ∧
      0 ≤ (getChest (calculateChestLeadDeflections cosStub 10 30 .NORMAL) .V1).r ∧
      (getChest (calculateChestLeadDeflections cosStub 10 30 .NORMAL) .V1).s ≤ 0) :=
  ⟨by norm_num,
   (C2_sign_invariants 30 2 cosStub 10 (by norm_num) .NORMAL).1 .leadI,
   (C2_sign_invariants 30 2 cosStub 10 (by norm_num) .NORMAL).2 .V1⟩

/-- C6: for every input, every pattern and every positive ceiling, each
chest lead satisfies |q| + r + |s| ≤ ceiling after normalization; a lead
whose pre-normalization sum exceeds the ceiling is scaled (that lead
alone) so its sum equals exactly the ceiling, and a lead within the
ceiling is returned unchanged. -/
theorem C6_chest_sum_bound (cosd : ℚ → ℚ) (maxDeflection a : ℚ)
    (p : ChestLeadPattern) (hm : 0 < maxDeflection) (v : ChestLead) :
    chestSum (getChest (calculateChestLeadDeflections cosd maxDeflection a p) v) ≤
      maxDeflection ∧
    (chestSum (getChest (chestLeadRawDeflections cosd a p) v) > maxDeflection →
      chestSum (getChest (calculateChestLeadDeflections cosd maxDeflection a p) v) =
        maxDeflection) ∧
    (chestSum (getChest (chestLeadRawDeflections cosd a p) v) ≤ maxDeflection →
      getChest (calculateChestLeadDeflections cosd maxDeflection a p) v =
        getChest (chestLeadRawDeflections cosd a p) v) := by
  rw [calculateChestLeadDeflections, getChest_normalizeDeflections]
  rcases le_or_lt (chestSum (getChest (chestLeadRawDeflections cosd a p) v))
      maxDeflection with hle | hgt
  · rw [normalizeQRS_of_le _ hle]
    exact ⟨hle, fun hc => absurd hc (by push_neg; exact hle), fun _ => rfl⟩
  · have heq := normalizeQRS_sum_eq hm (getChest (chestLeadRawDeflections cosd a p) v) hgt
    exact ⟨le_of_eq heq, fun _ => heq,
           fun hc => absurd hgt (by push_neg; exact hc)⟩

/-- C6 witness: at axis 60, Normal pattern, ceiling 10, lead V1 has raw sum
10.5 > 10 and is brought to exactly 10. -/
theorem C6_chest_sum_bound_witness :
    (0:ℚ) < 10 ∧
    chestSum (getChest (chestLeadRawDeflections cosStub 60 .NORMAL) .V1) > 10 ∧
    chestSum (getChest (calculateChestLeadDeflections cosStub 10 60 .NORMAL) .V1) = 10 := by
  have hraw : getChest (chestLeadRawDeflections cosStub 60 .NORMAL) .V1 =
      ⟨-0.5, 2, -8⟩ := by
    rw [getChest_chestLeadRawDeflections]
    norm_num [generateChestLeadDeflection, chestPatternBase, chestLeadPosition,
      cosStub, min_eq_left, min_eq_right, max_eq_left, max_eq_right]
  have hsum : chestSum (getChest (chestLeadRawDeflections cosStub 60 .NORMAL) .V1) =
      10.5 := by
    rw [hraw]
    norm_num [chestSum, abs_of_nonneg, abs_of_nonpos]
  refine ⟨by norm_num, by rw [hsum]; norm_num, ?_⟩
  exact (C6_chest_sum_bound cosStub 10 60 .NORMAL (by norm_num) .V1).2.1
    (by rw [hsum]; norm_num)

theorem generateChest_angle_free (cosd : ℚ → ℚ) (pos a1 a2 : ℚ)
    (p : ChestLeadPattern) (b : ℚ) (hp : p ≠ ChestLeadPattern.NORMAL) :
    generateChestLeadDeflection cosd pos a1 p b =
      generateChestLeadDeflection cosd pos a2 p b := by
  unfold generateChestLeadDeflection
  simp only [if_neg hp]

/-- C9: the axis angle is read only inside the Normal branch of
`generateChestLeadDeflection`, so for every pattern other than Normal the
chest engine's output is the same for any two axis angles. -/
theorem C9_nonNormal_ignores_angle (cosd : ℚ → ℚ) (maxDeflection a1 a2 : ℚ)
    (p : ChestLeadPattern) (hp : p ≠ ChestLeadPattern.NORMAL) :
    calculateChestLeadDeflections cosd maxDeflection a1 p =
      calculateChestLeadDeflections cosd maxDeflection a2 p := by
  have h := fun pos b => generateChest_angle_free cosd pos a1 a2 p b hp
  unfold calculateChestLeadDeflections chestLeadRawDeflections
  simp only [h]

/-- C9 witness: the LVH pattern at axis angles 0 and 90 yields identical
six-lead sets. -/
theorem C9_nonNormal_ignores_angle_witness :
    ChestLeadPattern.LEFT_VENTRICULAR_HYPERTROPHY ≠ ChestLeadPattern.NORMAL ∧
    calculateChestLeadDeflections cosStub 10 0 .LEFT_VENTRICULAR_HYPERTROPHY =
      calculateChestLeadDeflections cosStub 10 90 .LEFT_VENTRICULAR_HYPERTROPHY :=
  ⟨by decide, C9_nonNormal_ignores_angle cosStub 10 0 90 _ (by decide)⟩

/-- C10: the limb engine normalizes its input angle modulo 360 before any
per-lead computation (lines 412-416), so adding 360 to a finite axis angle
yields exactly the same six-lead set. -/
theorem C10_limb_periodic (a : ℚ) (baseAmplitudeIn : Option ℚ) :
    calculateLimbLeadDeflections (some (a + 360)) baseAmplitudeIn =
      calculateLimbLeadDeflections (some a) baseAmplitudeIn := by
  unfold calculateLimbLeadDeflections
  simp only [Option.map_some', normalizeAngle_add_360]

theorem createQRSDeflectionCore_perp (a L b : ℚ)
    (h : |(|normalizeAngle (L - a)|) - 90| < 5) :
    (createQRSDeflectionCore a L b).r = 1.5 * (b * 1.8) ∧
    (createQRSDeflectionCore a L b).s = -(1.5 * (b * 1.8)) := by
  obtain ⟨hlo, hhi⟩ := abs_lt.mp h
  have hc2 : ¬ (|normalizeAngle (L - a)| < 15) := by push_neg; linarith
  have hc3 : ¬ (|normalizeAngle (L - a)| > 165) := by push_neg; linarith
  unfold createQRSDeflectionCore
  dsimp only
  simp only [if_pos h, if_neg hc2, if_neg hc3]
  exact ⟨by trivial, by trivial⟩

/-- C7: with the default base amplitude 1.0, any limb lead whose fixed lead
angle is, modulo normalization, within 5 degrees of perpendicular to the
axis has r = |s| in the final output: the exact-override branch sets
r = |s| = 1.5 x amplifiedBase = 2.7, the clinical floors leave 2.7
unchanged, and the global normalization multiplies r and s by one shared
positive factor. -/
theorem C7_perpendicular_override (a : ℚ) (l : LimbLead)
    (h : |(|normalizeAngle (limbLeadAngle l - a)|) - 90| < 5) :
    (getLimb (calculateLimbLeadDeflections (some a) (some 1)) l).r =
      |(getLimb (calculateLimbLeadDeflections (some a) (some 1)) l).s| := by
  have hcore : createQRSDeflection (some (normalizeAngle a)) (limbLeadAngle l) (some 1) =
      ⟨0, 2.7, -2.7⟩ := by
    unfold createQRSDeflection
    have hs1 : sanitizeAxisAngle (some (normalizeAngle a)) = normalizeAngle a := rfl
    have hs2 : sanitizeBaseAmplitude (some 1) = 1 := by norm_num [sanitizeBaseAmplitude]
    rw [hs1, hs2]
    have h' : |(|normalizeAngle (limbLeadAngle l - normalizeAngle a)|) - 90| < 5 := by
      rw [normalizeAngle_sub_normalizeAngle]
      exact h
    obtain ⟨hr, hs⟩ := createQRSDeflectionCore_perp (normalizeAngle a) (limbLeadAngle l) 1 h'
    have hq := (createQRSDeflectionCore_signs (normalizeAngle a) (limbLeadAngle l) 1
      (by norm_num)).1
    refine QRSDeflection.ext hq ?_ ?_
    · rw [hr]; norm_num
    · rw [hs]; norm_num
  unfold calculateLimbLeadDeflections
  have hlead : getLimb (applyMinimumValues
      (limbLeadRawDeflections ((some a).map normalizeAngle) (some 1))) l =
      ⟨0, 2.7, -2.7⟩ := by
    rw [getLimb_applyMinimumValues, getLimb_limbLeadRawDeflections]
    simp only [Option.map_some', hcore]
    norm_num [applyMinimumValuesQRS, minFloor, abs_of_nonneg, abs_of_nonpos]
  unfold normalizeLimbLeadDeflections
  dsimp only
  split_ifs with hc
  · rw [getLimb_scaleLimb, hlead]
    have hf : 0 < LIMB_MAX_DEFLECTION / limbMaxAbs (applyMinimumValues
        (limbLeadRawDeflections ((some a).map normalizeAngle) (some 1))) :=
      div_pos (by norm_num [LIMB_MAX_DEFLECTION]) hc.2
    have habs : |(-2.7 : ℚ)| = 2.7 := by norm_num [abs_of_nonpos]
    show (2.7 : ℚ) * _ = |(-2.7 : ℚ) * _|
    rw [abs_mul, abs_of_pos hf, habs]
  · rw [hlead]
    have habs : |(-2.7 : ℚ)| = 2.7 := by norm_num [abs_of_nonpos]
    show (2.7 : ℚ) = |(-2.7 : ℚ)|
    rw [habs]

/-- C7 witness: at axis angle 60, lead aVL (lead angle -30) is exactly
perpendicular and its final r equals |s|. -/
theorem C7_perpendicular_override_witness :
    |(|normalizeAngle (limbLeadAngle .aVL - 60)|) - 90| < 5 ∧
    (getLimb (calculateLimbLeadDeflections (some 60) (some 1)) .aVL).r =
      |(getLimb (calculateLimbLeadDeflections (some 60) (some 1)) .aVL).s| :=
  ⟨by norm_num [limbLeadAngle, normalizeAngle, jsMod, jsTrunc],
   C7_perpendicular_override 60 .aVL
     (by norm_num [limbLeadAngle, normalizeAngle, jsMod, jsTrunc])⟩

/-- The limb pipeline up to (and including) `applyMinimumValues`: the
pre-normalization deflection set. -/
def limbPreNormalized (axisAngleIn baseAmplitudeIn : Option ℚ) : LimbLeadDeflections :=
  applyMinimumValues (limbLeadRawDeflections (axisAngleIn.map normalizeAngle) baseAmplitudeIn)

theorem calculateLimbLeadDeflections_eq (axisAngleIn baseAmplitudeIn : Option ℚ) :
    calculateLimbLeadDeflections axisAngleIn baseAmplitudeIn =
      normalizeLimbLeadDeflections (limbPreNormalized axisAngleIn baseAmplitudeIn) := rfl

theorem limbMaxAbs_nonneg (d : LimbLeadDeflections) : 0 ≤ limbMaxAbs d := by
  simp [limbMaxAbs, maxAbsQRS, le_max_iff]

theorem le_maxAbsQRS (m : ℚ) (q : QRSDeflection) : m ≤ maxAbsQRS m q :=
  le_trans (le_trans (le_max_left _ _) (le_max_left _ _)) (le_max_left _ _)

theorem comp_le_maxAbsQRS (m : ℚ) (q : QRSDeflection) :
    |q.q| ≤ maxAbsQRS m q ∧ |q.r| ≤ maxAbsQRS m q ∧ |q.s| ≤ maxAbsQRS m q :=
  ⟨le_trans (le_trans (le_max_right _ _) (le_max_left _ _)) (le_max_left _ _),
   le_trans (le_max_right _ _) (le_max_left _ _),
   le_max_right _ _⟩

theorem abs_le_limbMaxAbs (d : LimbLeadDeflections) (l : LimbLead) :
    |(getLimb d l).q| ≤ limbMaxAbs d ∧ |(getLimb d l).r| ≤ limbMaxAbs d ∧
    |(getLimb d l).s| ≤ limbMaxAbs d := by
  have s6 : maxAbsQRS (maxAbsQRS (maxAbsQRS (maxAbsQRS (maxAbsQRS (maxAbsQRS 0
      d.leadI) d.leadII) d.leadIII) d.aVR) d.aVL) d.aVF ≤ limbMaxAbs d := le_refl _
  have s5 := le_trans (le_maxAbsQRS _ d.aVF) s6
  have s4 := le_trans (le_maxAbsQRS _ d.aVL) s5
  have s3 := le_trans (le_maxAbsQRS _ d.aVR) s4
  have s2 := le_trans (le_maxAbsQRS _ d.leadIII) s3
  have s1 := le_trans (le_maxAbsQRS _ d.leadII) s2
  cases l
  · obtain ⟨h1, h2, h3⟩ := comp_le_maxAbsQRS 0 d.leadI
    exact ⟨le_trans h1 s1, le_trans h2 s1, le_trans h3 s1⟩
  · obtain ⟨h1, h2, h3⟩ := comp_le_maxAbsQRS (maxAbsQRS 0 d.leadI) d.leadII
    exact ⟨le_trans h1 s2, le_trans h2 s2, le_trans h3 s2⟩
  · obtain ⟨h1, h2, h3⟩ := comp_le_maxAbsQRS _ d.leadIII
    exact ⟨le_trans h1 s3, le_trans h2 s3, le_trans h3 s3⟩
  · obtain ⟨h1, h2, h3⟩ := comp_le_maxAbsQRS _ d.aVR
    exact ⟨le_trans h1 s4, le_trans h2 s4, le_trans h3 s4⟩
  · obtain ⟨h1, h2, h3⟩ := comp_le_maxAbsQRS _ d.aVL
    exact ⟨le_trans h1 s5, le_trans h2 s5, le_trans h3 s5⟩
  · obtain ⟨h1, h2, h3⟩ := comp_le_maxAbsQRS _ d.aVF
    exact ⟨le_trans h1 s6, le_trans h2 s6, le_trans h3 s6⟩

theorem maxAbsQRS_scale {c : ℚ} (hc : 0 ≤ c) (m : ℚ) (q : QRSDeflection) :
    maxAbsQRS (m * c) (scaleQRS c q) = maxAbsQRS m q * c := by
  unfold maxAbsQRS scaleQRS
  dsimp only
  rw [abs_mul, abs_mul, abs_mul, abs_of_nonneg hc,
      ← max_mul_of_nonneg _ _ hc, ← max_mul_of_nonneg _ _ hc,
      ← max_mul_of_nonneg _ _ hc]

theorem limbMaxAbs_scale {c : ℚ} (hc : 0 ≤ c) (d : LimbLeadDeflections) :
    limbMaxAbs (scaleLimb c d) = limbMaxAbs d * c := by
  unfold limbMaxAbs scaleLimb
  dsimp only
  conv_lhs => rw [show (0 : ℚ) = 0 * c by ring]
  rw [maxAbsQRS_scale hc, maxAbsQRS_scale hc, maxAbsQRS_scale hc,
      maxAbsQRS_scale hc, maxAbsQRS_scale hc, maxAbsQRS_scale hc]

/-- C5: for every finite axis angle and base amplitude, every component of
the final limb-lead set is at most 9.0 in absolute value; and whenever the
pre-normalization maximum exceeds 9.0, the final set is the
pre-normalization set with every value multiplied by the one shared factor
`9.0 / max`, after which the maximum absolute value is exactly 9.0. -/
theorem C5_limb_normalization (a b : ℚ) :
    (∀ l : LimbLead,
      |(getLimb (calculateLimbLeadDeflections (some a) (some b)) l).q| ≤ 9 ∧
      (getLimb (calculateLimbLeadDeflections (some a) (some b)) l).r ≤ 9 ∧
      |(getLimb (calculateLimbLeadDeflections (some a) (some b)) l).s| ≤ 9) ∧
    (limbMaxAbs (limbPreNormalized (some a) (some b)) > 9 →
      calculateLimbLeadDeflections (some a) (some b) =
        scaleLimb (9 / limbMaxAbs (limbPreNormalized (some a) (some b)))
          (limbPreNormalized (some a) (some b)) ∧
      limbMaxAbs (calculateLimbLeadDeflections (some a) (some b)) = 9) := by
  rw [calculateLimbLeadDeflections_eq]
  set pre := limbPreNormalized (some a) (some b) with hpre
  set m := limbMaxAbs pre with hm
  rcases le_or_lt m 9 with hle | hgt
  · have hnorm : normalizeLimbLeadDeflections pre = pre := by
      unfold normalizeLimbLeadDeflections
      rw [if_neg]
      rw [LIMB_MAX_DEFLECTION]
      rintro ⟨h1, -⟩
      rw [← hm] at h1
      linarith
    rw [hnorm]
    constructor
    · intro l
      obtain ⟨hq, hr, hs⟩ := abs_le_limbMaxAbs pre l
      exact ⟨le_trans hq (by rw [← hm]; linarith),
             le_trans (le_abs_self _) (le_trans hr (by rw [← hm]; linarith)),
             le_trans hs (by rw [← hm]; linarith)⟩
    · intro hc
      exact absurd hc (by push_neg; exact hle)
  · have hm0 : (0:ℚ) < m := lt_trans (by norm_num) hgt
    have hnorm : normalizeLimbLeadDeflections pre = scaleLimb (9 / m) pre := by
      unfold normalizeLimbLeadDeflections
      rw [if_pos]
      · rw [LIMB_MAX_DEFLECTION, ← hm]
      · rw [LIMB_MAX_DEFLECTION, ← hm]
        exact ⟨hgt, hm0⟩
    have hfac : (0:ℚ) < 9 / m := div_pos (by norm_num) hm0
    have hscaled : limbMaxAbs (scaleLimb (9 / m) pre) = 9 := by
      rw [limbMaxAbs_scale hfac.le, ← hm]
      field_simp
    rw [hnorm]
    refine ⟨?_, fun _ => ⟨rfl, hscaled⟩⟩
    intro l
    obtain ⟨hq, hr, hs⟩ := abs_le_limbMaxAbs (scaleLimb (9 / m) pre) l
    rw [hscaled] at hq hr hs
    exact ⟨hq, le_trans (le_abs_self _) hr, hs⟩

/-- C5 witness: at axis 60 and base amplitude 2 the pre-normalization
maximum is 11.664 > 9, and after the global normalization the maximum
absolute value is exactly 9. -/
theorem C5_limb_normalization_witness :
    limbMaxAbs (limbPreNormalized (some 60) (some 2)) > 9 ∧
    limbMaxAbs (calculateLimbLeadDeflections (some 60) (some 2)) = 9 := by
  have hn : normalizeAngle 60 = 60 := by norm_num [normalizeAngle, jsMod, jsTrunc]
  have h1 : createQRSDeflection (some 60) 0 (some 2) = ⟨0, 6.84, -3.96⟩ := by
    norm_num [createQRSDeflection, createQRSDeflectionCore, sanitizeAxisAngle,
      sanitizeBaseAmplitude, normalizeAngle, jsMod, jsTrunc]
  have h2 : createQRSDeflection (some 60) 60 (some 2) = ⟨0, 11.664, -0.864⟩ := by
    norm_num [createQRSDeflection, createQRSDeflectionCore, sanitizeAxisAngle,
      sanitizeBaseAmplitude, normalizeAngle, jsMod, jsTrunc]
  have h3 : createQRSDeflection (some 60) 120 (some 2) = ⟨0, 6.84, -3.96⟩ := by
    norm_num [createQRSDeflection, createQRSDeflectionCore, sanitizeAxisAngle,
      sanitizeBaseAmplitude, normalizeAngle, jsMod, jsTrunc]
  have h4 : createQRSDeflection (some 60) (-150) (some 2) = ⟨0, 2.52, -8.28⟩ := by
    norm_num [createQRSDeflection, createQRSDeflectionCore, sanitizeAxisAngle,
      sanitizeBaseAmplitude, normalizeAngle, jsMod, jsTrunc]
  have h5 : createQRSDeflection (some 60) (-30) (some 2) = ⟨0, 5.4, -5.4⟩ := by
    norm_num [createQRSDeflection, createQRSDeflectionCore, sanitizeAxisAngle,
      sanitizeBaseAmplitude, normalizeAngle, jsMod, jsTrunc]
  have h6 : createQRSDeflection (some 60) 90 (some 2) = ⟨0, 8.28, -2.52⟩ := by
    norm_num [createQRSDeflection, createQRSDeflectionCore, sanitizeAxisAngle,
      sanitizeBaseAmplitude, normalizeAngle, jsMod, jsTrunc]
  have hpre : limbPreNormalized (some 60) (some 2) =
      ⟨⟨0, 6.84, -3.96⟩, ⟨0, 11.664, -0.864⟩, ⟨0, 6.84, -3.96⟩,
       ⟨0, 2.52, -8.28⟩, ⟨0, 5.4, -5.4⟩, ⟨0, 8.28, -2.52⟩⟩ := by
    unfold limbPreNormalized limbLeadRawDeflections
    simp only [Option.map_some', hn, h1, h2, h3, h4, h5, h6]
    norm_num [applyMinimumValues, applyMinimumValuesQRS, minFloor,
      abs_of_nonneg, abs_of_nonpos]
  have hmax : limbMaxAbs
      ⟨⟨0, 6.84, -3.96⟩, ⟨0, 11.664, -0.864⟩, ⟨0, 6.84, -3.96⟩,
       ⟨0, 2.52, -8.28⟩, ⟨0, 5.4, -5.4⟩, ⟨0, 8.28, -2.52⟩⟩ = 11.664 := by
    norm_num [limbMaxAbs, maxAbsQRS, abs_of_nonneg, abs_of_nonpos,
      max_eq_left, max_eq_right]
  refine ⟨by rw [hpre, hmax]; norm_num, ?_⟩
  exact ((C5_limb_normalization 60 2).2 (by rw [hpre, hmax]; norm_num)).2

/-- Every component of every lead is a finite number (`isSome`: not NaN). -/
def chestAllFinite (d : ChestLeadDeflectionsN) : Prop :=
  (d.V1.q.isSome ∧ d.V1.r.isSome ∧ d.V1.s.isSome) ∧
  (d.V2.q.isSome ∧ d.V2.r.isSome ∧ d.V2.s.isSome) ∧
  (d.V3.q.isSome ∧ d.V3.r.isSome ∧ d.V3.s.isSome) ∧
  (d.V4.q.isSome ∧ d.V4.r.isSome ∧ d.V4.s.isSome) ∧
  (d.V5.q.isSome ∧ d.V5.r.isSome ∧ d.V5.s.isSome) ∧
  (d.V6.q.isSome ∧ d.V6.r.isSome ∧ d.V6.s.isSome)

theorem getChestN_calculateChestLeadDeflectionsJS (cosd : ℚ → ℚ)
    (maxD : ℚ) (aIn : Option ℚ) (p : ChestLeadPattern) (v : ChestLead) :
    getChestN (calculateChestLeadDeflectionsJS cosd maxD aIn p) v =
      normalizeQRSJS maxD
        (generateChestLeadDeflectionJS cosd (chestLeadPosition v) aIn p 10) := by
  cases v <;> rfl

theorem generateChestLeadDeflectionJS_nonNormal (cosd : ℚ → ℚ) (pos : ℚ)
    (aIn : Option ℚ) (p : ChestLeadPattern) (b : ℚ)
    (hp : p ≠ ChestLeadPattern.NORMAL) :
    generateChestLeadDeflectionJS cosd pos aIn p b =
      ⟨some (max (-b) (min 0 (chestPatternBase pos p b).2.2)),
       some (max 0 (min (b * 2) (chestPatternBase pos p b).1)),
       some (max (-(b * 2)) (min 0 (chestPatternBase pos p b).2.1))⟩ := by
  unfold generateChestLeadDeflectionJS
  simp only [if_neg hp, oMax, oMin]

theorem normalizeQRSJS_some (maxD x y z : ℚ) :
    ∃ u v w : ℚ, normalizeQRSJS maxD ⟨some x, some y, some z⟩ =
      ⟨some u, some v, some w⟩ := by
  unfold normalizeQRSJS
  simp only [oAbs, oAdd]
  split_ifs with h
  · exact ⟨x * (maxD / (|x| + y + |z|)), y * (maxD / (|x| + y + |z|)),
      z * (maxD / (|x| + y + |z|)), by simp [oMul]⟩
  · exact ⟨x, y, z, rfl⟩

theorem generateChestLeadDeflectionJS_nan_normal (cosd : ℚ → ℚ) (pos b : ℚ) :
    generateChestLeadDeflectionJS cosd pos none ChestLeadPattern.NORMAL b =
      ⟨none, none, none⟩ := by
  unfold generateChestLeadDeflectionJS
  simp [oMul, oAdd, oMin, oMax]

/-- C1 (corrected): on a non-finite axis angle, the limb engine sanitizes
the angle to 0 and returns the same fully-finite six-lead set as for angle
0 (and, being a total function, never throws); the chest engine also never
throws and always returns a complete six-lead set, and for every pattern
other than Normal that set is fully finite — but for the default Normal
pattern, the unguarded axis modulation computes `cos(NaN - 60) = NaN` and
multiplies it into every component, and neither the `Math.max`/`Math.min`
clamps nor the normalizer (whose `NaN > MAX_DEFLECTION` test is false)
remove it, so every component of every lead comes back NaN rather than
finite. -/
theorem C1_nan_handling (baseAmplitudeIn : Option ℚ) (cosd : ℚ → ℚ)
    (maxDeflection : ℚ) (p : ChestLeadPattern) :
    calculateLimbLeadDeflections none baseAmplitudeIn =
      calculateLimbLeadDeflections (some 0) baseAmplitudeIn ∧
    (p ≠ ChestLeadPattern.NORMAL →
      chestAllFinite (calculateChestLeadDeflectionsJS cosd maxDeflection none p)) ∧
    (∀ v : ChestLead,
      getChestN (calculateChestLeadDeflectionsJS cosd maxDeflection none
        ChestLeadPattern.NORMAL) v = ⟨none, none, none⟩) := by
  refine ⟨?_, ?_, ?_⟩
  · unfold calculateLimbLeadDeflections
    simp only [Option.map_none', Option.map_some']
    rw [show normalizeAngle 0 = 0 by norm_num [normalizeAngle, jsMod, jsTrunc]]
    rfl
  · intro hp
    have hfin : ∀ v : ChestLead,
        (getChestN (calculateChestLeadDeflectionsJS cosd maxDeflection none p) v).q.isSome ∧
        (getChestN (calculateChestLeadDeflectionsJS cosd maxDeflection none p) v).r.isSome ∧
        (getChestN (calculateChestLeadDeflectionsJS cosd maxDeflection none p) v).s.isSome := by
      intro v
      rw [getChestN_calculateChestLeadDeflectionsJS,
          generateChestLeadDeflectionJS_nonNormal cosd _ none p 10 hp]
      obtain ⟨u, w, t, heq⟩ := normalizeQRSJS_some maxDeflection _ _ _
      rw [heq]
      exact ⟨rfl, rfl, rfl⟩
    exact ⟨hfin .V1, hfin .V2, hfin .V3, hfin .V4, hfin .V5, hfin .V6⟩
  · intro v
    rw [getChestN_calculateChestLeadDeflectionsJS,
        generateChestLeadDeflectionJS_nan_normal]
    rfl

/-- C1 counterexample: with a NaN axis angle and the default Normal
pattern, the chest engine's returned lead set is not finite-valued (every
component of V1 is NaN), refuting the claim that both engines return a
fully finite set for every pattern. -/
theorem C1_chest_nan_counterexample :
    ¬ chestAllFinite
        (calculateChestLeadDeflectionsJS (fun _ => 0) 10 none
          ChestLeadPattern.NORMAL) := by
  intro h
  have hq : (calculateChestLeadDeflectionsJS (fun _ => 0) 10 none
      ChestLeadPattern.NORMAL).V1.q.isSome := h.1.1
  have hV1 : (calculateChestLeadDeflectionsJS (fun _ => 0) 10 none
      ChestLeadPattern.NORMAL).V1 = ⟨none, none, none⟩ := by
    show getChestN (calculateChestLeadDeflectionsJS (fun _ => 0) 10 none
      ChestLeadPattern.NORMAL) .V1 = ⟨none, none, none⟩
    rw [getChestN_calculateChestLeadDeflectionsJS,
        generateChestLeadDeflectionJS_nan_normal]
    rfl
  rw [hV1] at hq
  simp at hq

/-- C1 witness: the amended theorem instantiated at the RBBB pattern (all
finite) and at Normal (V1 entirely NaN). -/
theorem C1_nan_handling_witness :
    ChestLeadPattern.RBBB ≠ ChestLeadPattern.NORMAL ∧
    chestAllFinite (calculateChestLeadDeflectionsJS (fun _ => 0) 10 none
      ChestLeadPattern.RBBB) ∧
    getChestN (calculateChestLeadDeflectionsJS (fun _ => 0) 10 none
      ChestLeadPattern.NORMAL) .V1 = ⟨none, none, none⟩ :=
  ⟨by decide,
   (C1_nan_handling (some 1) (fun _ => 0) 10 ChestLeadPattern.RBBB).2.1 (by decide),
   (C1_nan_handling (some 1) (fun _ => 0) 10 ChestLeadPattern.RBBB).2.2 .V1⟩

/-- Comparison of two per-lead-normalized values: if `0 ≤ a < b` and the
cross product `a * tb < b * ta` holds (i.e. `a/ta < b/tb`), then the
normalized value of `a` (scaled down when its lead total `ta` exceeds the
ceiling) stays strictly below the normalized value of `b`. -/
theorem scaledLt (maxD a b ta tb : ℚ) (hm : 0 < maxD) (hta : 0 < ta)
    (htb : 0 < tb) (ha : 0 ≤ a) (hab : a < b) (hx : a * tb < b * ta) :
    (if ta > maxD then a * (maxD / ta) else a) <
    (if tb > maxD then b * (maxD / tb) else b) := by
  have hb : 0 < b := lt_of_le_of_lt ha hab
  split_ifs with h1 h2 h2
  · rw [mul_div_assoc', mul_div_assoc', div_lt_div_iff₀ hta htb]
    nlinarith [mul_lt_mul_of_pos_right hx hm]
  · push_neg at h2
    have hlt1 : maxD / ta < 1 := (div_lt_one hta).mpr h1
    have hle : a * (maxD / ta) ≤ a * 1 := by
      apply mul_le_mul_of_nonneg_left hlt1.le ha
    rw [mul_one] at hle
    linarith
  · push_neg at h1
    have key : a * tb < b * maxD := by
      nlinarith [mul_le_mul_of_nonneg_left h1 hb.le]
    rw [mul_div_assoc', lt_div_iff₀ htb]
    linarith [key]
  · exact hab

theorem normalizeQRS_r (maxD : ℚ) (qrs : QRSDeflection) :
    (normalizeQRS maxD qrs).r =
      if chestSum qrs > maxD then qrs.r * (maxD / chestSum qrs) else qrs.r := by
  unfold normalizeQRS
  dsimp only
  split_ifs with h <;> rfl

theorem normalizeQRS_s (maxD : ℚ) (qrs : QRSDeflection) :
    (normalizeQRS maxD qrs).s =
      if chestSum qrs > maxD then qrs.s * (maxD / chestSum qrs) else qrs.s := by
  unfold normalizeQRS
  dsimp only
  split_ifs with h <;> rfl

theorem abs_ite_neg_scaled {c : Prop} [Decidable c] (s t maxD : ℚ)
    (hs : s ≤ 0) (ht : 0 < t) (hm : 0 < maxD) :
    |if c then s * (maxD / t) else s| =
      if c then -s * (maxD / t) else -s := by
  split_ifs with h
  · rw [abs_mul, abs_of_nonpos hs, abs_of_pos (div_pos hm ht)]
  · exact abs_of_nonpos hs

/-- C8: at axis angle 60 with the Normal pattern (where the axis modulation
factor is `1 + cos 0 * position * 0.3`), the final r amplitudes strictly
increase and the s magnitudes strictly decrease from V1 through V6, for
every positive value of the chest ceiling — whether or not individual leads
get scaled by the per-lead normalization. -/
theorem C8_normal_progression (cosd : ℚ → ℚ) (maxDeflection : ℚ)
    (hm : 0 < maxDeflection) (hcos : cosd 0 = 1) :
    ((getChest (calculateChestLeadDeflections cosd maxDeflection 60
        ChestLeadPattern.NORMAL) .V1).r <
      (getChest (calculateChestLeadDeflections cosd maxDeflection 60
        ChestLeadPattern.NORMAL) .V2).r ∧
     (getChest (calculateChestLeadDeflections cosd maxDeflection 60
        ChestLeadPattern.NORMAL) .V2).r <
      (getChest (calculateChestLeadDeflections cosd maxDeflection 60
        ChestLeadPattern.NORMAL) .V3).r ∧
     (getChest (calculateChestLeadDeflections cosd maxDeflection 60
        ChestLeadPattern.NORMAL) .V3).r <
      (getChest (calculateChestLeadDeflections cosd maxDeflection 60
        ChestLeadPattern.NORMAL) .V4).r ∧
     (getChest (calculateChestLeadDeflections cosd maxDeflection 60
        ChestLeadPattern.NORMAL) .V4).r <
      (getChest (calculateChestLeadDeflections cosd maxDeflection 60
        ChestLeadPattern.NORMAL) .V5).r ∧
     (getChest (calculateChestLeadDeflections cosd maxDeflection 60
        ChestLeadPattern.NORMAL) .V5).r <
      (getChest (calculateChestLeadDeflections cosd maxDeflection 60
        ChestLeadPattern.NORMAL) .V6).r) ∧
    (|(getChest (calculateChestLeadDeflections cosd maxDeflection 60
        ChestLeadPattern.NORMAL) .V2).s| <
      |(getChest (calculateChestLeadDeflections cosd maxDeflection 60
        ChestLeadPattern.NORMAL) .V1).s| ∧
     |(getChest (calculateChestLeadDeflections cosd maxDeflection 60
        ChestLeadPattern.NORMAL) .V3).s| <
      |(getChest (calculateChestLeadDeflections cosd maxDeflection 60
        ChestLeadPattern.NORMAL) .V2).s| ∧
     |(getChest (calculateChestLeadDeflections cosd maxDeflection 60
        ChestLeadPattern.NORMAL) .V4).s| <
      |(getChest (calculateChestLeadDeflections cosd maxDeflection 60
        ChestLeadPattern.NORMAL) .V3).s| ∧
     |(getChest (calculateChestLeadDeflections cosd maxDeflection 60
        ChestLeadPattern.NORMAL) .V5).s| <
      |(getChest (calculateChestLeadDeflections cosd maxDeflection 60
        ChestLeadPattern.NORMAL) .V4).s| ∧
     |(getChest (calculateChestLeadDeflections cosd maxDeflection 60
        ChestLeadPattern.NORMAL) .V6).s| <
      |(getChest (calculateChestLeadDeflections cosd maxDeflection 60
        ChestLeadPattern.NORMAL) .V5).s|) := by
  have e1 : generateChestLeadDeflection cosd 0 60 ChestLeadPattern.NORMAL 10 =
      ⟨-0.5, 2, -8⟩ := by
    unfold generateChestLeadDeflection chestPatternBase
    norm_num [hcos, min_eq_left, min_eq_right, max_eq_left, max_eq_right]
  have e2 : generateChestLeadDeflection cosd 0.2 60 ChestLeadPattern.NORMAL 10 =
      ⟨-0.53, 2.968, -7.42⟩ := by
    unfold generateChestLeadDeflection chestPatternBase
    norm_num [hcos, min_eq_left, min_eq_right, max_eq_left, max_eq_right]
  have e3 : generateChestLeadDeflection cosd 0.4 60 ChestLeadPattern.NORMAL 10 =
      ⟨-1.12, 6.72, -5.04⟩ := by
    unfold generateChestLeadDeflection chestPatternBase
    norm_num [hcos, min_eq_left, min_eq_right, max_eq_left, max_eq_right]
  have e4 : generateChestLeadDeflection cosd 0.6 60 ChestLeadPattern.NORMAL 10 =
      ⟨-1.77, 9.44, -2.36⟩ := by
    unfold generateChestLeadDeflection chestPatternBase
    norm_num [hcos, min_eq_left, min_eq_right, max_eq_left, max_eq_right]
  have e5 : generateChestLeadDeflection cosd 0.8 60 ChestLeadPattern.NORMAL 10 =
      ⟨-2.17, 10.54, -1.55⟩ := by
    unfold generateChestLeadDeflection chestPatternBase
    norm_num [hcos, min_eq_left, min_eq_right, max_eq_left, max_eq_right]
  have e6 : generateChestLeadDeflection cosd 1 60 ChestLeadPattern.NORMAL 10 =
      ⟨-2.6, 11.7, -0.65⟩ := by
    unfold generateChestLeadDeflection chestPatternBase
    norm_num [hcos, min_eq_left, min_eq_right, max_eq_left, max_eq_right]
  have hp1 : getChest (calculateChestLeadDeflections cosd maxDeflection 60
      ChestLeadPattern.NORMAL) .V1 = normalizeQRS maxDeflection ⟨-0.5, 2, -8⟩ := by
    rw [calculateChestLeadDeflections, getChest_normalizeDeflections,
        getChest_chestLeadRawDeflections]
    simp only [chestLeadPosition]
    rw [e1]
  have hp2 : getChest (calculateChestLeadDeflections cosd maxDeflection 60
      ChestLeadPattern.NORMAL) .V2 = normalizeQRS maxDeflection ⟨-0.53, 2.968, -7.42⟩ := by
    rw [calculateChestLeadDeflections, getChest_normalizeDeflections,
        getChest_chestLeadRawDeflections]
    simp only [chestLeadPosition]
    rw [e2]
  have hp3 : getChest (calculateChestLeadDeflections cosd maxDeflection 60
      ChestLeadPattern.NORMAL) .V3 = normalizeQRS maxDeflection ⟨-1.12, 6.72, -5.04⟩ := by
    rw [calculateChestLeadDeflections, getChest_normalizeDeflections,
        getChest_chestLeadRawDeflections]
    simp only [chestLeadPosition]
    rw [e3]
  have hp4 : getChest (calculateChestLeadDeflections cosd maxDeflection 60
      ChestLeadPattern.NORMAL) .V4 = normalizeQRS maxDeflection ⟨-1.77, 9.44, -2.36⟩ := by
    rw [calculateChestLeadDeflections, getChest_normalizeDeflections,
        getChest_chestLeadRawDeflections]
    simp only [chestLeadPosition]
    rw [e4]
  have hp5 : getChest (calculateChestLeadDeflections cosd maxDeflection 60
      ChestLeadPattern.NORMAL) .V5 = normalizeQRS maxDeflection ⟨-2.17, 10.54, -1.55⟩ := by
    rw [calculateChestLeadDeflections, getChest_normalizeDeflections,
        getChest_chestLeadRawDeflections]
    simp only [chestLeadPosition]
    rw [e5]
  have hp6 : getChest (calculateChestLeadDeflections cosd maxDeflection 60
      ChestLeadPattern.NORMAL) .V6 = normalizeQRS maxDeflection ⟨-2.6, 11.7, -0.65⟩ := by
    rw [calculateChestLeadDeflections, getChest_normalizeDeflections,
        getChest_chestLeadRawDeflections]
    simp only [chestLeadPosition]
    rw [e6]
  have hs1 : chestSum ⟨-0.5, 2, -8⟩ = 10.5 := by
    norm_num [chestSum, abs_of_nonpos, abs_of_nonneg]
  have hs2 : chestSum ⟨-0.53, 2.968, -7.42⟩ = 10.918 := by
    norm_num [chestSum, abs_of_nonpos, abs_of_nonneg]
  have hs3 : chestSum ⟨-1.12, 6.72, -5.04⟩ = 12.88 := by
    norm_num [chestSum, abs_of_nonpos, abs_of_nonneg]
  have hs4 : chestSum ⟨-1.77, 9.44, -2.36⟩ = 13.57 := by
    norm_num [chestSum, abs_of_nonpos, abs_of_nonneg]
  have hs5 : chestSum ⟨-2.17, 10.54, -1.55⟩ = 14.26 := by
    norm_num [chestSum, abs_of_nonpos, abs_of_nonneg]
  have hs6 : chestSum ⟨-2.6, 11.7, -0.65⟩ = 14.95 := by
    norm_num [chestSum, abs_of_nonpos, abs_of_nonneg]
  have hr1 : (getChest (calculateChestLeadDeflections cosd maxDeflection 60
      ChestLeadPattern.NORMAL) .V1).r =
      if (10.5 : ℚ) > maxDeflection then 2 * (maxDeflection / 10.5) else 2 := by
    rw [hp1, normalizeQRS_r, hs1]
  have hr2 : (getChest (calculateChestLeadDeflections cosd maxDeflection 60
      ChestLeadPattern.NORMAL) .V2).r =
      if (10.918 : ℚ) > maxDeflection then 2.968 * (maxDeflection / 10.918) else 2.968 := by
    rw [hp2, normalizeQRS_r, hs2]
  have hr3 : (getChest (calculateChestLeadDeflections cosd maxDeflection 60
      ChestLeadPattern.NORMAL) .V3).r =
      if (12.88 : ℚ) > maxDeflection then 6.72 * (maxDeflection / 12.88) else 6.72 := by
    rw [hp3, normalizeQRS_r, hs3]
  have hr4 : (getChest (calculateChestLeadDeflections cosd maxDeflection 60
      ChestLeadPattern.NORMAL) .V4).r =
      if (13.57 : ℚ) > maxDeflection then 9.44 * (maxDeflection / 13.57) else 9.44 := by
    rw [hp4, normalizeQRS_r, hs4]
  have hr5 : (getChest (calculateChestLeadDeflections cosd maxDeflection 60
      ChestLeadPattern.NORMAL) .V5).r =
      if (14.26 : ℚ) > maxDeflection then 10.54 * (maxDeflection / 14.26) else 10.54 := by
    rw [hp5, normalizeQRS_r, hs5]
  have hr6 : (getChest (calculateChestLeadDeflections cosd maxDeflection 60
      ChestLeadPattern.NORMAL) .V6).r =
      if (14.95 : ℚ) > maxDeflection then 11.7 * (maxDeflection / 14.95) else 11.7 := by
    rw [hp6, normalizeQRS_r, hs6]
  have habs1 : |(getChest (calculateChestLeadDeflections cosd maxDeflection 60
      ChestLeadPattern.NORMAL) .V1).s| =
      if (10.5 : ℚ) > maxDeflection then 8 * (maxDeflection / 10.5) else 8 := by
    rw [hp1, normalizeQRS_s, hs1,
        abs_ite_neg_scaled _ _ _ (show ((⟨-0.5, 2, -8⟩ : QRSDeflection)).s ≤ 0 by
          norm_num) (by norm_num) hm]
    norm_num
  have habs2 : |(getChest (calculateChestLeadDeflections cosd maxDeflection 60
      ChestLeadPattern.NORMAL) .V2).s| =
      if (10.918 : ℚ) > maxDeflection then 7.42 * (maxDeflection / 10.918) else 7.42 := by
    rw [hp2, normalizeQRS_s, hs2,
        abs_ite_neg_scaled _ _ _ (show ((⟨-0.53, 2.968, -7.42⟩ : QRSDeflection)).s ≤ 0 by
          norm_num) (by norm_num) hm]
    norm_num
  have habs3 : |(getChest (calculateChestLeadDeflections cosd maxDeflection 60
      ChestLeadPattern.NORMAL) .V3).s| =
      if (12.88 : ℚ) > maxDeflection then 5.04 * (maxDeflection / 12.88) else 5.04 := by
    rw [hp3, normalizeQRS_s, hs3,
        abs_ite_neg_scaled _ _ _ (show ((⟨-1.12, 6.72, -5.04⟩ : QRSDeflection)).s ≤ 0 by
          norm_num) (by norm_num) hm]
    norm_num
  have habs4 : |(getChest (calculateChestLeadDeflections cosd maxDeflection 60
      ChestLeadPattern.NORMAL) .V4).s| =
      if (13.57 : ℚ) > maxDeflection then 2.36 * (maxDeflection / 13.57) else 2.36 := by
    rw [hp4, normalizeQRS_s, hs4,
        abs_ite_neg_scaled _ _ _ (show ((⟨-1.77, 9.44, -2.36⟩ : QRSDeflection)).s ≤ 0 by
          norm_num) (by norm_num) hm]
    norm_num
  have habs5 : |(getChest (calculateChestLeadDeflections cosd maxDeflection 60
      ChestLeadPattern.NORMAL) .V5).s| =
      if (14.26 : ℚ) > maxDeflection then 1.55 * (maxDeflection / 14.26) else 1.55 := by
    rw [hp5, normalizeQRS_s, hs5,
        abs_ite_neg_scaled _ _ _ (show ((⟨-2.17, 10.54, -1.55⟩ : QRSDeflection)).s ≤ 0 by
          norm_num) (by norm_num) hm]
    norm_num
  have habs6 : |(getChest (calculateChestLeadDeflections cosd maxDeflection 60
      ChestLeadPattern.NORMAL) .V6).s| =
      if (14.95 : ℚ) > maxDeflection then 0.65 * (maxDeflection / 14.95) else 0.65 := by
    rw [hp6, normalizeQRS_s, hs6,
        abs_ite_neg_scaled _ _ _ (show ((⟨-2.6, 11.7, -0.65⟩ : QRSDeflection)).s ≤ 0 by
          norm_num) (by norm_num) hm]
    norm_num
  refine ⟨⟨?_, ?_, ?_, ?_, ?_⟩, ?_, ?_, ?_, ?_, ?_⟩
  · rw [hr1, hr2]
    exact scaledLt maxDeflection 2 2.968 10.5 10.918 hm (by norm_num)
      (by norm_num) (by norm_num) (by norm_num) (by norm_num)
  · rw [hr2, hr3]
    exact scaledLt maxDeflection 2.968 6.72 10.918 12.88 hm (by norm_num)
      (by norm_num) (by norm_num) (by norm_num) (by norm_num)
  · rw [hr3, hr4]
    exact scaledLt maxDeflection 6.72 9.44 12.88 13.57 hm (by norm_num)
      (by norm_num) (by norm_num) (by norm_num) (by norm_num)
  · rw [hr4, hr5]
    exact scaledLt maxDeflection 9.44 10.54 13.57 14.26 hm (by norm_num)
      (by norm_num) (by norm_num) (by norm_num) (by norm_num)
  · rw [hr5, hr6]
    exact scaledLt maxDeflection 10.54 11.7 14.26 14.95 hm (by norm_num)
      (by norm_num) (by norm_num) (by norm_num) (by norm_num)
  · rw [habs1, habs2]
    exact scaledLt maxDeflection 7.42 8 10.918 10.5 hm (by norm_num)
      (by norm_num) (by norm_num) (by norm_num) (by norm_num)
  · rw [habs2, habs3]
    exact scaledLt maxDeflection 5.04 7.42 12.88 10.918 hm (by norm_num)
      (by norm_num) (by norm_num) (by norm_num) (by norm_num)
  · rw [habs3, habs4]
    exact scaledLt maxDeflection 2.36 5.04 13.57 12.88 hm (by norm_num)
      (by norm_num) (by norm_num) (by norm_num) (by norm_num)
  · rw [habs4, habs5]
    exact scaledLt maxDeflection 1.55 2.36 14.26 13.57 hm (by norm_num)
      (by norm_num) (by norm_num) (by norm_num) (by norm_num)
  · rw [habs5, habs6]
    exact scaledLt maxDeflection 0.65 1.55 14.95 14.26 hm (by norm_num)
      (by norm_num) (by norm_num) (by norm_num) (by norm_num)

/-- C8 witness: the strict V1-to-V6 R-wave progression instantiated at
ceiling 10 with a concrete cosine stub. -/
theorem C8_normal_progression_witness :
    (0 : ℚ) < 10 ∧ cosStub 0 = 1 ∧
    (getChest (calculateChestLeadDeflections cosStub 10 60
      ChestLeadPattern.NORMAL) .V1).r <
    (getChest (calculateChestLeadDeflections cosStub 10 60
      ChestLeadPattern.NORMAL) .V2).r :=
  ⟨by norm_num, cosStub_zero,
   ((C8_normal_progression cosStub 10 (by norm_num) cosStub_zero).1).1⟩
